import Mathlib

/-!
Shallow embedding of the request-routing core of the repository: the usage
tracker (`src/searcher/cuTracker.ts`) and the provider strategy engine
(`src/searcher/providerStrategy.ts`).

Modelling conventions:
* TypeScript numbers are modelled as `ℚ` (the claims only exercise values on
  which double arithmetic is exact); `Math.floor` becomes `Rat.floor`.
* The wall clock is threaded explicitly as a `Clock` record carrying
  `Date.now()` (milliseconds), `todayKey()` (YYYY-MM-DD), `monthKey()`
  (YYYY-MM) and the ISO timestamp used for `lastUpdated` stamps.
* JavaScript `Map`s are modelled as insertion-ordered association lists;
  in-place mutation of a looked-up entry becomes an in-place update of the
  association list.
* Disk persistence and event emission are side effects outside the state the
  claims speak about and are omitted; every state mutation the TypeScript
  performs on the tracked counters and provider states is reproduced.
-/

namespace CuCore

/-- Wall-clock instant threaded through the embedding: `now` is
`Date.now()` in milliseconds, `today`/`month` are the day and month keys,
`nowIso` the ISO timestamp string. -/
structure Clock where
  now : ℚ
  today : String
  month : String
  nowIso : String
deriving DecidableEq

/-- Math.floor on a TypeScript number. -/
def jsFloor (q : ℚ) : ℚ := (⌊q⌋ : ℤ)

/-- DEFAULT_ALERT_THRESHOLD (env default "80"). -/
def DEFAULT_ALERT_THRESHOLD : ℚ := 80

/-- DEFAULT_EMERGENCY_THRESHOLD (env default "95"). -/
def DEFAULT_EMERGENCY_THRESHOLD : ℚ := 95

/-- METHOD_CU_ESTIMATES from cuTracker.ts. -/
def METHOD_CU_ESTIMATES : List (String × ℚ) :=
  [("eth_blocknumber", 10),
   ("eth_getblockbynumber", 20),
   ("eth_getbalance", 15),
   ("eth_gettransactionreceipt", 25),
   ("eth_gettransactionbyhash", 25),
   ("eth_call", 26),
   ("eth_estimategas", 26),
   ("eth_sendrawtransaction", 40),
   ("eth_getlogs", 75),
   ("eth_newfilter", 45),
   ("eth_uninstallfilter", 5),
   ("eth_getfilterchanges", 20),
   ("eth_feehistory", 28),
   ("eth_gasprice", 12),
   ("eth_maxpriorityfeepergas", 12),
   ("debug_tracetransaction", 309),
   ("trace_transaction", 309),
   ("trace_block", 309),
   ("arbtrace_transaction", 309)]

/-- Whitespace test backing the JS `trim` model. -/
def isJsWhitespace (c : Char) : Bool :=
  c == ' ' || c == '\t' || c == '\n' || c == '\r'

/-- JS `String.prototype.trim`, modelled on the character list. -/
def jsTrim (s : String) : String :=
  ⟨((s.data.dropWhile isJsWhitespace).reverse.dropWhile isJsWhitespace).reverse⟩

/-- JS `String.prototype.toLowerCase`, modelled on the character list (the
method strings in play are ASCII). -/
def jsToLower (s : String) : String := ⟨s.data.map Char.toLower⟩

/-- normaliseMethod: `(method ?? "custom").trim().toLowerCase()`. -/
def normaliseMethod (method : Option String) : String :=
  jsToLower (jsTrim (method.getD "custom"))

/-- estimateMethodCu: table lookup on the normalised method, fallback 26. -/
def estimateMethodCu (method : Option String) (fallback : ℚ := 26) : ℚ :=
  ((METHOD_CU_ESTIMATES.lookup (normaliseMethod method)).getD fallback)

/-- ProviderRegistration: quota configuration for one provider; the two
thresholds are optional percentages. -/
structure ProviderRegistration where
  name : String
  displayName : String
  dailyLimit : ℚ
  monthlyLimit : ℚ
  alertThreshold : Option ℚ := none
  emergencyThreshold : Option ℚ := none
deriving DecidableEq

/-- CuStatusLevel: per-provider quota status band. -/
inductive CuStatusLevel where
  | healthy
  | warning
  | alert
  | emergency
  | exhausted
deriving DecidableEq

/-- CanUseOptions for CuTracker.canUse. -/
structure CanUseOptions where
  allowNearLimit : Bool := false
  ignoreMonthly : Bool := false
  ignoreDaily : Bool := false
deriving DecidableEq

/-- ProviderUsageInternal: the mutable per-provider counter record owned by
the tracker. -/
structure ProviderUsageInternal where
  registration : ProviderRegistration
  dailyUsed : ℚ
  monthlyUsed : ℚ
  requestCount : ℕ
  lastUpdated : Option String
  lastDailyReset : Option String
  lastMonthlyReset : Option String
  cuByMethod : List (String × ℚ)
  cacheHits : ℕ
  cacheSavedCu : ℚ
deriving DecidableEq

/-- CuTracker state: the providers Map in insertion order. -/
structure CuTracker where
  providers : List (String × ProviderUsageInternal)
deriving DecidableEq

/-- In-place update of an association list at a key (a JS Map keeps the
position of an existing key). -/
def updateAssoc {β : Type} (k : String) (v : β) :
    List (String × β) → List (String × β)
  | [] => []
  | (k0, v0) :: rest =>
      if k0 = k then (k0, v) :: rest else (k0, v0) :: updateAssoc k v rest

/-- Object-style bump `obj[key] = (obj[key] ?? 0) + q`: update in place when
the key exists, append otherwise. -/
def bumpAssoc (k : String) (q : ℚ) : List (String × ℚ) → List (String × ℚ)
  | [] => [(k, q)]
  | (k0, v0) :: rest =>
      if k0 = k then (k0, v0 + q) :: rest else (k0, v0) :: bumpAssoc k q rest

namespace CuTracker

/-- Map.get on the providers map. -/
def lookup (tr : CuTracker) (name : String) : Option ProviderUsageInternal :=
  tr.providers.lookup name

/-- registerProvider: idempotent upsert; clamps the thresholds; an existing
provider keeps its counters and only the registration is replaced. -/
def registerProvider (clk : Clock) (reg : ProviderRegistration)
    (tr : CuTracker) : CuTracker :=
  let alertThreshold := reg.alertThreshold.getD DEFAULT_ALERT_THRESHOLD
  let emergencyThreshold := reg.emergencyThreshold.getD DEFAULT_EMERGENCY_THRESHOLD
  let clampedAlert := max 1 (min 100 alertThreshold)
  let clampedEmergency := max clampedAlert (min 100 emergencyThreshold)
  let registration :=
    { reg with
        alertThreshold := some clampedAlert
        emergencyThreshold := some clampedEmergency }
  match tr.providers.lookup reg.name with
  | some existing =>
      ⟨updateAssoc reg.name { existing with registration := registration }
        tr.providers⟩
  | none =>
      ⟨tr.providers ++
        [(reg.name,
          { registration := registration
            dailyUsed := 0
            monthlyUsed := 0
            requestCount := 0
            lastUpdated := none
            lastDailyReset := some clk.today
            lastMonthlyReset := some clk.month
            cuByMethod := []
            cacheHits := 0
            cacheSavedCu := 0 })]⟩

/-- maybeReset: zero the daily counters once the stored day key differs from
today, and the monthly counter once the stored month key differs. -/
def maybeReset (clk : Clock) (s : ProviderUsageInternal) :
    ProviderUsageInternal :=
  let s :=
    if s.lastDailyReset ≠ some clk.today then
      { s with
          dailyUsed := 0
          requestCount := 0
          cacheHits := 0
          cacheSavedCu := 0
          cuByMethod := []
          lastDailyReset := some clk.today }
    else s
  if s.lastMonthlyReset ≠ some clk.month then
    { s with monthlyUsed := 0, lastMonthlyReset := some clk.month }
  else s

/-- recordUsage: silently a no-op for an unknown provider; otherwise applies
the reset check first, then adds `max(0, floor(cuOverride ?? estimate))` to
the daily/monthly/per-method counters and bumps the request count. -/
def recordUsage (clk : Clock) (providerName : String) (method : Option String)
    (cuOverride : Option ℚ) (tr : CuTracker) : CuTracker :=
  match tr.lookup providerName with
  | none => tr
  | some state =>
      let estimated := max 0 (jsFloor (cuOverride.getD (estimateMethodCu method)))
      let state := maybeReset clk state
      let key := normaliseMethod method
      let state :=
        { state with
            dailyUsed := state.dailyUsed + estimated
            monthlyUsed := state.monthlyUsed + estimated
            requestCount := state.requestCount + 1
            cuByMethod := bumpAssoc key estimated state.cuByMethod
            lastUpdated := some clk.nowIso }
      ⟨updateAssoc providerName state tr.providers⟩

/-- recordCacheHit: no-op for an unknown provider; otherwise applies the
reset check, bumps cacheHits and adds `max(0, floor(cuSaved))` to
cacheSavedCu. Does not touch dailyUsed/monthlyUsed (beyond the reset). -/
def recordCacheHit (clk : Clock) (providerName : String) (cuSaved : ℚ)
    (tr : CuTracker) : CuTracker :=
  match tr.lookup providerName with
  | none => tr
  | some state =>
      let state := maybeReset clk state
      let state :=
        { state with
            cacheHits := state.cacheHits + 1
            cacheSavedCu := state.cacheSavedCu + max 0 (jsFloor cuSaved) }
      ⟨updateAssoc providerName state tr.providers⟩

/-- canUse: false for an unknown provider; otherwise applies the reset check
(mutating the stored state) and then compares the projected totals against
the limits, with the allowNearLimit / ignoreDaily / ignoreMonthly escapes. -/
def canUse (clk : Clock) (providerName : String) (cuNeeded : ℚ)
    (options : CanUseOptions) (tr : CuTracker) : Bool × CuTracker :=
  match tr.lookup providerName with
  | none => (false, tr)
  | some state =>
      let state := maybeReset clk state
      let tr' : CuTracker := ⟨updateAssoc providerName state tr.providers⟩
      let registration := state.registration
      let nextDaily := state.dailyUsed + cuNeeded
      let nextMonthly := state.monthlyUsed + cuNeeded
      let allowNear := options.allowNearLimit
      let dailyOk :=
        if options.ignoreDaily then true
        else decide (nextDaily ≤ registration.dailyLimit) ||
          (allowNear && decide (state.dailyUsed < registration.dailyLimit))
      let monthlyOk :=
        if options.ignoreMonthly then true
        else decide (nextMonthly ≤ registration.monthlyLimit) ||
          (allowNear && decide (state.monthlyUsed < registration.monthlyLimit))
      (dailyOk && monthlyOk, tr')

/-- resetProvider: zero all counters of a known provider and stamp the reset
keys; no-op on an unknown name. -/
def resetProvider (clk : Clock) (providerName : String) (tr : CuTracker) :
    CuTracker :=
  match tr.lookup providerName with
  | none => tr
  | some state =>
      let state :=
        { state with
            dailyUsed := 0
            monthlyUsed := 0
            requestCount := 0
            cacheHits := 0
            cacheSavedCu := 0
            cuByMethod := []
            lastDailyReset := some clk.today
            lastMonthlyReset := some clk.month
            lastUpdated := some clk.nowIso }
      ⟨updateAssoc providerName state tr.providers⟩

/-- computeStatusLevel: status band from the larger of the two usage
percentages and the registration's thresholds. -/
def computeStatusLevel (dailyPercent monthlyPercent : ℚ)
    (registration : ProviderRegistration) : CuStatusLevel :=
  let alertThreshold := registration.alertThreshold.getD DEFAULT_ALERT_THRESHOLD
  let emergencyThreshold :=
    registration.emergencyThreshold.getD DEFAULT_EMERGENCY_THRESHOLD
  let maxPercent := max dailyPercent monthlyPercent
  if maxPercent ≥ 100 then .exhausted
  else if maxPercent ≥ emergencyThreshold then .emergency
  else if maxPercent ≥ max alertThreshold (emergencyThreshold * (9/10)) then .alert
  else if maxPercent ≥ alertThreshold then .warning
  else .healthy

end CuTracker

/-- ProviderUsageSnapshot: the read-only view returned by getUsage. -/
structure ProviderUsageSnapshot where
  name : String
  displayName : String
  dailyLimit : ℚ
  monthlyLimit : ℚ
  dailyUsed : ℚ
  monthlyUsed : ℚ
  dailyRemaining : ℚ
  monthlyRemaining : ℚ
  dailyPercent : ℚ
  monthlyPercent : ℚ
  status : CuStatusLevel
  lastUpdated : Option String
  requestCount : ℕ
  cuByMethod : List (String × ℚ)
  cacheHits : ℕ
  cacheSavedCu : ℚ
  alertThreshold : ℚ
  emergencyThreshold : ℚ
deriving DecidableEq

/-- Totals of getAggregatedUsage. -/
structure UsageTotals where
  dailyUsed : ℚ
  dailyLimit : ℚ
  dailyPercent : ℚ
  monthlyUsed : ℚ
  monthlyLimit : ℚ
  monthlyPercent : ℚ
  cacheHits : ℕ
  cacheSavedCu : ℚ
  requestCount : ℕ
deriving DecidableEq

/-- AggregatedUsageSnapshot: all provider snapshots plus cluster totals. -/
structure AggregatedUsageSnapshot where
  providers : List ProviderUsageSnapshot
  totals : UsageTotals
deriving DecidableEq

namespace CuTracker

/-- getUsage: derived snapshot for a provider; an unknown name yields the
all-zero snapshot. The snapshot is computed on the reset-adjusted state (the
read path's write-back of that adjustment is not observable in the snapshot
and is omitted here). -/
def getUsage (clk : Clock) (providerName : String) (tr : CuTracker) :
    ProviderUsageSnapshot :=
  match tr.lookup providerName with
  | none =>
      { name := providerName
        displayName := providerName
        dailyLimit := 0
        monthlyLimit := 0
        dailyUsed := 0
        monthlyUsed := 0
        dailyRemaining := 0
        monthlyRemaining := 0
        dailyPercent := 0
        monthlyPercent := 0
        status := .healthy
        lastUpdated := none
        requestCount := 0
        cuByMethod := []
        cacheHits := 0
        cacheSavedCu := 0
        alertThreshold := DEFAULT_ALERT_THRESHOLD
        emergencyThreshold := DEFAULT_EMERGENCY_THRESHOLD }
  | some state =>
      let s := maybeReset clk state
      let registration := s.registration
      let dailyPercent :=
        if registration.dailyLimit = 0 then 0
        else s.dailyUsed / registration.dailyLimit * 100
      let monthlyPercent :=
        if registration.monthlyLimit = 0 then 0
        else s.monthlyUsed / registration.monthlyLimit * 100
      { name := registration.name
        displayName := registration.displayName
        dailyLimit := registration.dailyLimit
        monthlyLimit := registration.monthlyLimit
        dailyUsed := s.dailyUsed
        monthlyUsed := s.monthlyUsed
        dailyRemaining := max 0 (registration.dailyLimit - s.dailyUsed)
        monthlyRemaining := max 0 (registration.monthlyLimit - s.monthlyUsed)
        dailyPercent := dailyPercent
        monthlyPercent := monthlyPercent
        status := computeStatusLevel dailyPercent monthlyPercent registration
        lastUpdated := s.lastUpdated
        requestCount := s.requestCount
        cuByMethod := s.cuByMethod
        cacheHits := s.cacheHits
        cacheSavedCu := s.cacheSavedCu
        alertThreshold := registration.alertThreshold.getD DEFAULT_ALERT_THRESHOLD
        emergencyThreshold :=
          registration.emergencyThreshold.getD DEFAULT_EMERGENCY_THRESHOLD }

/-- getAllUsage: one snapshot per registered provider, in insertion order. -/
def getAllUsage (clk : Clock) (tr : CuTracker) : List ProviderUsageSnapshot :=
  tr.providers.map (fun kv => getUsage clk kv.1 tr)

/-- getAggregatedUsage: fold the per-provider snapshots into totals and then
derive the aggregate percentages. -/
def getAggregatedUsage (clk : Clock) (tr : CuTracker) :
    AggregatedUsageSnapshot :=
  let providerSnaps := getAllUsage clk tr
  let totals := providerSnaps.foldl
    (fun (acc : UsageTotals) p =>
      { acc with
          dailyUsed := acc.dailyUsed + p.dailyUsed
          dailyLimit := acc.dailyLimit + p.dailyLimit
          monthlyUsed := acc.monthlyUsed + p.monthlyUsed
          monthlyLimit := acc.monthlyLimit + p.monthlyLimit
          cacheHits := acc.cacheHits + p.cacheHits
          cacheSavedCu := acc.cacheSavedCu + p.cacheSavedCu
          requestCount := acc.requestCount + p.requestCount })
    { dailyUsed := 0, dailyLimit := 0, dailyPercent := 0, monthlyUsed := 0
      monthlyLimit := 0, monthlyPercent := 0, cacheHits := 0, cacheSavedCu := 0
      requestCount := 0 }
  let totals :=
    { totals with
        dailyPercent :=
          if totals.dailyLimit = 0 then 0
          else totals.dailyUsed / totals.dailyLimit * 100
        monthlyPercent :=
          if totals.monthlyLimit = 0 then 0
          else totals.monthlyUsed / totals.monthlyLimit * 100 }
  { providers := providerSnaps, totals := totals }

end CuTracker

/-! ### Provider strategy engine (providerStrategy.ts) -/

/-- Math.round on a TypeScript number (half rounds toward +∞). -/
def jsRound (q : ℚ) : ℚ := (⌊q + 1/2⌋ : ℤ)

/-- ProviderRole. -/
inductive ProviderRole where
  | primary
  | secondary
  | tertiary
  | emergency
deriving DecidableEq

/-- ProviderHealth. -/
inductive ProviderHealth where
  | healthy
  | degraded
  | offline
deriving DecidableEq

/-- ProviderDefinition: a registration plus routing fields. -/
structure ProviderDefinition extends ProviderRegistration where
  priority : ℚ
  role : ProviderRole
  trafficCap : Option ℚ := none
  costWeight : Option ℚ := none
  emergencyOnly : Bool := false
deriving DecidableEq

/-- ProviderState: a definition plus mutable health bookkeeping. -/
structure ProviderState extends ProviderDefinition where
  health : ProviderHealth
  lastFailureAt : Option ℚ := none
  lastSuccessAt : Option ℚ := none
  lastSelectedAt : Option ℚ := none
  consecutiveFailures : ℕ
  totalFailures : ℕ
  totalSuccesses : ℕ
  averageLatencyMs : ℚ
  offlineUntil : Option ℚ := none
deriving DecidableEq

/-- CacheEntry: one stored response. -/
structure CacheEntry (α : Type) where
  key : String
  value : α
  expiresAt : ℚ
  providerName : String
  estimatedCu : ℚ
  hits : ℕ
  createdAt : ℚ
  method : String
deriving DecidableEq

/-- CacheStats. -/
structure CacheStats where
  hits : ℕ
  misses : ℕ
  stored : ℕ
  evictions : ℕ
  savedCu : ℚ
deriving DecidableEq

/-- ProviderRequestOptions for executeWithBestProvider. -/
structure ProviderRequestOptions where
  method : Option String := none
  cuOverride : Option ℚ := none
  label : Option String := none
  cacheable : Bool := false
  cacheKey : Option String := none
  ttlSeconds : Option ℚ := none
  forceProvider : Option String := none
  preferredProvider : Option String := none
  allowNearLimit : Bool := false
  respectEmergencyRestrictions : Option Bool := none
  maxAttempts : Option ℕ := none
  maxProviderAttempts : Option ℕ := none
  emergencyBypass : Bool := false
deriving DecidableEq

/-- Environment-derived configuration of the strategy engine, with the
source's defaults. -/
structure StrategyConfig where
  strategy : String := "capacity_based"
  failureThreshold : ℚ := 3
  offlineCooldownMs : ℚ := 45000
  cacheEnabled : Bool := true
  cacheBaseTtlSeconds : ℚ := 30
  cacheMaxSize : ℕ := 1000
  aggressiveCaching : Bool := false
  emergencyProviderCount : ℕ := 2
  emergencyDailyThreshold : ℚ := 95
  emergencyMonthlyThreshold : ℚ := 95
deriving DecidableEq

/-- Mutable state of the ProviderStrategy singleton; `α` is the type of the
cached response values. -/
structure StrategyState (α : Type) where
  providers : List (String × ProviderState)
  cache : List (String × CacheEntry α)
  cacheStats : CacheStats := { hits := 0, misses := 0, stored := 0, evictions := 0, savedCu := 0 }
  manualEmergency : Bool := false
  emergencyActive : Bool := false
  emergencyReason : Option String := none
  emergencySince : Option ℚ := none
  roundRobinCounter : ℕ := 0
deriving DecidableEq

/-- Combined mutable world: the strategy state plus the tracker it calls
into. -/
structure World (α : Type) where
  strategy : StrategyState α
  tracker : CuTracker
deriving DecidableEq

/-- Errors executeWithBestProvider can raise: the two fresh `Error` objects
it constructs, or a rethrow of the executor's own last error. -/
inductive ExecErr (ε : Type) where
  | noProvidersAvailable (label : String)
  | noProviderSucceeded (label : String)
  | underlying (e : ε)
deriving DecidableEq

/-- scoreFromUsage: average of the remaining daily and monthly fractions. -/
def scoreFromUsage (s : ProviderUsageSnapshot) : ℚ :=
  let dailyRemaining :=
    if s.dailyLimit = 0 then 0 else (s.dailyLimit - s.dailyUsed) / s.dailyLimit
  let monthlyRemaining :=
    if s.monthlyLimit = 0 then 0
    else (s.monthlyLimit - s.monthlyUsed) / s.monthlyLimit
  (dailyRemaining + monthlyRemaining) / 2

/-- Stable insertion step for the JS sort model: `a` is placed after every
already-placed `b` whose comparator value against `a` is ≤ 0. -/
def insertKeep {β : Type} (le : β → β → Bool) (a : β) : List β → List β
  | [] => [a]
  | b :: l => if le b a then b :: insertKeep le a l else a :: b :: l

/-- Stable sort with a JS comparator, modelled as insertion sort: elements
are inserted in original order, each after all earlier elements that compare
≤ 0 against it (JS `Array.prototype.sort` is stable). `le b a` stands for
`comparator(b, a) <= 0`. -/
def jsSortBy {β : Type} (le : β → β → Bool) (l : List β) : List β :=
  l.foldl (fun acc a => insertKeep le a acc) []

namespace ProviderStrategy

/-- handleSuccess: stamp the success, reset consecutiveFailures, restore
healthy unconditionally, fold the latency into the smoothed average. -/
def handleSuccess (clk : Clock) (latency : ℚ) (p : ProviderState) :
    ProviderState :=
  let p :=
    { p with
        lastSuccessAt := some clk.now
        lastSelectedAt := some clk.now
        totalSuccesses := p.totalSuccesses + 1
        consecutiveFailures := 0
        health := .healthy }
  if p.averageLatencyMs = 0 then { p with averageLatencyMs := latency }
  else
    { p with
        averageLatencyMs :=
          jsRound (p.averageLatencyMs * (7/10) + latency * (3/10)) }

/-- handleFailure: bump the failure counters; at the failure threshold go
offline with a cooldown deadline, otherwise degrade. -/
def handleFailure (cfg : StrategyConfig) (clk : Clock) (p : ProviderState) :
    ProviderState :=
  let p :=
    { p with
        lastFailureAt := some clk.now
        consecutiveFailures := p.consecutiveFailures + 1
        totalFailures := p.totalFailures + 1 }
  if (p.consecutiveFailures : ℚ) ≥ cfg.failureThreshold then
    { p with
        health := .offline
        offlineUntil := some (clk.now + cfg.offlineCooldownMs) }
  else { p with health := .degraded }

/-- Default-path TTL of resolveCacheTtlSeconds: the base TTL raised (by
`max`) to 1.5x the base under aggressive caching and to 2x the base while
emergency mode is active, then floored. -/
def resolvedBaseTtl (cfg : StrategyConfig) (emergencyActive : Bool) : ℚ :=
  let ttl := cfg.cacheBaseTtlSeconds
  let ttl :=
    if cfg.aggressiveCaching then max ttl (cfg.cacheBaseTtlSeconds * (3/2))
    else ttl
  let ttl :=
    if emergencyActive then max ttl (cfg.cacheBaseTtlSeconds * 2) else ttl
  jsFloor ttl

/-- resolveCacheTtlSeconds: 0 when caching is disabled; a positive caller
override wins; otherwise the default path. -/
def resolveCacheTtlSeconds (cfg : StrategyConfig) (emergencyActive : Bool)
    (ttlOverride : Option ℚ) : ℚ :=
  if cfg.cacheEnabled = false then 0
  else
    match ttlOverride with
    | some t => if t > 0 then t else resolvedBaseTtl cfg emergencyActive
    | none => resolvedBaseTtl cfg emergencyActive

/-- In-place mutation of the provider object looked up by name. -/
def updateProvider {α : Type} (name : String)
    (f : ProviderState → ProviderState) (st : StrategyState α) :
    StrategyState α :=
  match st.providers.lookup name with
  | some p => { st with providers := updateAssoc name (f p) st.providers }
  | none => st

/-- Snapshots the evaluator counts as emergency providers: at or above the
global daily/monthly emergency thresholds, or at status emergency. -/
def emergencyProvidersOf (cfg : StrategyConfig)
    (aggregated : AggregatedUsageSnapshot) : List ProviderUsageSnapshot :=
  aggregated.providers.filter
    (fun p =>
      decide (p.dailyPercent ≥ cfg.emergencyDailyThreshold) ||
      decide (p.monthlyPercent ≥ cfg.emergencyMonthlyThreshold) ||
      decide (p.status = .emergency))

/-- Snapshots at status alert or emergency. -/
def alertsOf (aggregated : AggregatedUsageSnapshot) :
    List ProviderUsageSnapshot :=
  aggregated.providers.filter
    (fun p => decide (p.status = .alert) || decide (p.status = .emergency))

/-- The evaluator's activation condition: some emergency provider, or enough
alert/emergency providers, or aggregate totals over the global thresholds. -/
def shouldActivateEmergency (cfg : StrategyConfig)
    (aggregated : AggregatedUsageSnapshot) : Bool :=
  !(emergencyProvidersOf cfg aggregated).isEmpty ||
  decide ((alertsOf aggregated).length ≥ cfg.emergencyProviderCount) ||
  (decide (aggregated.totals.dailyPercent ≥ cfg.emergencyDailyThreshold) ||
   decide (aggregated.totals.monthlyPercent ≥ cfg.emergencyMonthlyThreshold))

/-- evaluateEmergency: manual override forces activation; otherwise activate
iff some provider snapshot crosses the global daily/monthly emergency
thresholds or reports status emergency, or the number of alert/emergency
snapshots reaches the configured count, or the aggregate totals cross the
global thresholds; deactivate otherwise. -/
def evaluateEmergency {α : Type} (cfg : StrategyConfig) (clk : Clock)
    (source : String) (w : World α) : World α :=
  let st := w.strategy
  if st.manualEmergency then
    if st.emergencyActive then w
    else
      { w with
          strategy :=
            { st with emergencyActive := true, emergencySince := some clk.now } }
  else
    let aggregated := CuTracker.getAggregatedUsage clk w.tracker
    let emergencyProviders := emergencyProvidersOf cfg aggregated
    let shouldActivate := shouldActivateEmergency cfg aggregated
    if shouldActivate && !st.emergencyActive then
      let joined :=
        String.intercalate "," (emergencyProviders.map (fun p => p.name))
      let joined := if joined = "" then "threshold" else joined
      { w with
          strategy :=
            { st with
                emergencyActive := true
                emergencySince := some clk.now
                emergencyReason := some (source ++ ":" ++ joined) } }
    else if !shouldActivate && st.emergencyActive then
      { w with
          strategy :=
            { st with
                emergencyActive := false
                emergencySince := none
                emergencyReason := none } }
    else w

/-- canUseProvider: reject a provider still inside its offline cooldown,
an emergency-only provider outside emergency mode (absent a bypass), and a
provider the tracker's quota check refuses. -/
def canUseProvider (clk : Clock) (p : ProviderState) (estimatedCu : ℚ)
    (opts : ProviderRequestOptions) (emergencyActive : Bool)
    (tr : CuTracker) : Bool × CuTracker :=
  let offlineBlocked :=
    decide (p.health = .offline) &&
      (match p.offlineUntil with
       | some t => !decide (t = 0) && decide (t > clk.now)
       | none => false)
  if offlineBlocked then (false, tr)
  else if p.emergencyOnly && !emergencyActive && !opts.emergencyBypass then
    (false, tr)
  else
    CuTracker.canUse clk p.name estimatedCu
      { allowNearLimit := opts.allowNearLimit } tr

/-- buildProviderOrder: candidate ordering per the configured strategy, with
force-provider restriction, emergency narrowing and preferred-provider
pre-sort. Under round_robin the persistent cursor advances by one. -/
def buildProviderOrder {α : Type} (cfg : StrategyConfig) (clk : Clock)
    (opts : ProviderRequestOptions) (w : World α) :
    List ProviderState × StrategyState α :=
  let st := w.strategy
  let providers := st.providers.map (fun kv => kv.2)
  let providers :=
    match opts.forceProvider with
    | some f =>
        match st.providers.lookup f with
        | some forced => [forced]
        | none => []
    | none => providers
  if providers.isEmpty then (providers, st)
  else
    let providers :=
      if st.emergencyActive &&
          !(opts.respectEmergencyRestrictions == some false) then
        let emergencyCandidates := providers.filter
          (fun p => !decide (p.role = .primary) || p.emergencyOnly)
        if emergencyCandidates.isEmpty then providers else emergencyCandidates
      else providers
    let providers :=
      match opts.preferredProvider with
      | some preferred =>
          jsSortBy (fun b a =>
            if b.name = preferred then true
            else if a.name = preferred then false
            else true) providers
      | none => providers
    let snap := fun (name : String) => CuTracker.getUsage clk name w.tracker
    if cfg.strategy = "round_robin" then
      let sorted := jsSortBy (fun a b => decide (a.priority ≤ b.priority))
        providers
      let rotated :=
        sorted.drop st.roundRobinCounter ++ sorted.take st.roundRobinCounter
      (rotated,
        { st with
            roundRobinCounter :=
              (st.roundRobinCounter + 1) % max 1 sorted.length })
    else if cfg.strategy = "cost_optimized" then
      (jsSortBy (fun a b =>
        let costA := a.costWeight.getD a.priority
        let costB := b.costWeight.getD b.priority
        if costA ≠ costB then decide (costA ≤ costB)
        else
          decide (scoreFromUsage (snap a.name) ≥ scoreFromUsage (snap b.name)))
        providers, st)
    else if cfg.strategy = "emergency" then
      (jsSortBy (fun a b => decide (a.priority ≤ b.priority))
        (providers.filter (fun p => !decide (p.role = .primary))), st)
    else
      (jsSortBy (fun a b =>
        let scoreA := scoreFromUsage (snap a.name)
        let scoreB := scoreFromUsage (snap b.name)
        if scoreA ≠ scoreB then decide (scoreA ≥ scoreB)
        else decide (a.priority ≤ b.priority)) providers, st)

/-- Estimated CU of one executeWithBestProvider call: the override (or the
per-method estimate) floored and clamped to a minimum of 1 — unlike the
tracker-side recordUsage clamp, whose minimum is 0. -/
def strategyEstimatedCu (opts : ProviderRequestOptions) (method : String) :
    ℚ :=
  max 1 (jsFloor (opts.cuOverride.getD
    (estimateMethodCu (some (opts.method.getD method)))))

/-- Map.set: replace an existing key in place, append a fresh one. -/
def setAssoc {β : Type} (k : String) (v : β) (l : List (String × β)) :
    List (String × β) :=
  if (l.lookup k).isSome then updateAssoc k v l else l ++ [(k, v)]

/-- enforceCacheLimit: while over the size cap, evict entries in ascending
order of expiry time. -/
def enforceCacheLimit {α : Type} (cfg : StrategyConfig)
    (st : StrategyState α) : StrategyState α :=
  if st.cache.length ≤ cfg.cacheMaxSize then st
  else
    let entries := jsSortBy (fun a b => decide (a.expiresAt ≤ b.expiresAt))
      (st.cache.map (fun kv => kv.2))
    let removeCount := st.cache.length - cfg.cacheMaxSize
    let removeKeys := (entries.take removeCount).map (fun e => e.key)
    { st with
        cache := st.cache.filter (fun kv => !(removeKeys.contains kv.1))
        cacheStats :=
          { st.cacheStats with
              evictions := st.cacheStats.evictions + removeCount } }

/-- Cache store of a successful cacheable call: build the entry with the
resolved TTL and the call's estimated CU, set it, bump the stored counter
and enforce the size cap. -/
def storeCacheEntry {α : Type} (cfg : StrategyConfig) (clk : Clock)
    (methodName key : String) (estimatedCu : ℚ)
    (opts : ProviderRequestOptions) (providerName : String) (value : α)
    (w : World α) : World α :=
  let ttl :=
    resolveCacheTtlSeconds cfg w.strategy.emergencyActive opts.ttlSeconds
  let entry : CacheEntry α :=
    { key := key
      value := value
      expiresAt := clk.now + ttl * 1000
      providerName := providerName
      estimatedCu := estimatedCu
      hits := 0
      createdAt := clk.now
      method := methodName }
  let st := { w.strategy with cache := setAssoc key entry w.strategy.cache }
  let st :=
    { st with
        cacheStats :=
          { st.cacheStats with stored := st.cacheStats.stored + 1 } }
  { w with strategy := enforceCacheLimit cfg st }

/-- Success bookkeeping of one executor call: health, usage accounting,
emergency re-evaluation and the cache store. -/
def applySuccess {α : Type} (cfg : StrategyConfig) (clk : Clock)
    (methodName : String) (estimatedCu : ℚ) (cacheKey : Option String)
    (opts : ProviderRequestOptions) (latency : ℚ) (providerName : String)
    (value : α) (w : World α) : World α :=
  let w :=
    { w with
        strategy := updateProvider providerName (handleSuccess clk latency)
          w.strategy }
  let w :=
    { w with
        tracker := CuTracker.recordUsage clk providerName (some methodName)
          (some estimatedCu) w.tracker }
  let w := evaluateEmergency cfg clk ("usage:" ++ providerName) w
  match cacheKey with
  | some key =>
      if cfg.cacheEnabled then
        storeCacheEntry cfg clk methodName key estimatedCu opts providerName
          value w
      else w
  | none => w

/-- Failure bookkeeping of one executor call. -/
def applyFailure {α : Type} (cfg : StrategyConfig) (clk : Clock)
    (providerName : String) (w : World α) : World α :=
  let w :=
    { w with
        strategy := updateProvider providerName (handleFailure cfg clk)
          w.strategy }
  evaluateEmergency cfg clk ("error:" ++ providerName) w

/-- Per-provider attempt loop of executeWithBestProvider: up to
`providerAttempts` executor calls against one provider while the global
attempt budget lasts. Returns either the successful value with the updated
world, or the advanced attempt counter, last error and world. -/
def runInner {α ε : Type} (cfg : StrategyConfig) (clk : Clock)
    (methodName : String) (estimatedCu : ℚ) (cacheKey : Option String)
    (opts : ProviderRequestOptions) (exec : String → ℕ → Except ε α)
    (lat : ℕ → ℚ) (providerName : String) (maxAttempts : ℕ) :
    ℕ → ℕ → Option ε → World α →
      Option (α × World α) × ℕ × Option ε × World α
  | 0, attempt, lastError, w => (none, attempt, lastError, w)
  | innerLeft + 1, attempt, lastError, w =>
      if attempt ≥ maxAttempts then (none, attempt, lastError, w)
      else
        let attemptNo := attempt + 1
        match exec providerName attemptNo with
        | .ok value =>
            (some (value,
              applySuccess cfg clk methodName estimatedCu cacheKey opts
                (lat attemptNo) providerName value w),
             attemptNo, lastError, w)
        | .error e =>
            runInner cfg clk methodName estimatedCu cacheKey opts exec lat
              providerName maxAttempts innerLeft attemptNo (some e)
              (applyFailure cfg clk providerName w)

/-- Candidate loop of executeWithBestProvider: filter by canUseProvider,
try each candidate, and on exhaustion throw the last underlying error when
one exists, else the fresh no-providers-succeeded error. -/
def runCandidates {α ε : Type} (cfg : StrategyConfig) (clk : Clock)
    (methodName label : String) (estimatedCu : ℚ) (cacheKey : Option String)
    (opts : ProviderRequestOptions) (exec : String → ℕ → Except ε α)
    (lat : ℕ → ℚ) (maxAttempts providerAttempts : ℕ) :
    List ProviderState → ℕ → Option ε → World α →
      Except (ExecErr ε) α × World α
  | [], _, lastError, w =>
      (.error (match lastError with
        | some e => .underlying e
        | none => .noProviderSucceeded label), w)
  | p :: rest, attempt, lastError, w =>
      if attempt ≥ maxAttempts then
        (.error (match lastError with
          | some e => .underlying e
          | none => .noProviderSucceeded label), w)
      else
        let current := (w.strategy.providers.lookup p.name).getD p
        let checked := canUseProvider clk current estimatedCu opts
          w.strategy.emergencyActive w.tracker
        let w := { w with tracker := checked.2 }
        if !checked.1 then
          runCandidates cfg clk methodName label estimatedCu cacheKey opts
            exec lat maxAttempts providerAttempts rest attempt lastError w
        else
          match runInner cfg clk methodName estimatedCu cacheKey opts exec lat
              p.name maxAttempts providerAttempts attempt lastError w with
          | (some (value, w'), _, _, _) => (.ok value, w')
          | (none, attempt', lastError', w') =>
              runCandidates cfg clk methodName label estimatedCu cacheKey opts
                exec lat maxAttempts providerAttempts rest attempt' lastError'
                w'

/-- Provider-selection phase of executeWithBestProvider (the `proceed`
continuation after the cache check): build the candidate order, raise the
no-providers-available error on an empty list, else drive the attempt
loops. -/
def proceedExecute {α ε : Type} (cfg : StrategyConfig) (clk : Clock)
    (methodName label : String) (estimatedCu : ℚ) (cacheKey : Option String)
    (opts : ProviderRequestOptions) (exec : String → ℕ → Except ε α)
    (lat : ℕ → ℚ) (w : World α) : Except (ExecErr ε) α × World α :=
  let built := buildProviderOrder cfg clk opts w
  let w := { w with strategy := built.2 }
  if built.1.isEmpty then (.error (.noProvidersAvailable label), w)
  else
    let maxAttempts := max 1 (opts.maxAttempts.getD built.1.length)
    let providerAttempts := max 1 (opts.maxProviderAttempts.getD 1)
    runCandidates cfg clk methodName label estimatedCu cacheKey opts exec
      lat maxAttempts providerAttempts built.1 0 none w

/-- executeWithBestProvider: cache-first execution against the best
available provider. `paramsSerialised` stands for the JSON serialisation of
the call parameters (used only inside the derived cache key); the executor
is modelled as a function of the chosen provider name and the global attempt
number, `lat` as the measured latency of each attempt. -/
def executeWithBestProvider {α ε : Type} (cfg : StrategyConfig) (clk : Clock)
    (method : String) (paramsSerialised : String)
    (exec : String → ℕ → Except ε α) (lat : ℕ → ℚ)
    (opts : ProviderRequestOptions) (w : World α) :
    Except (ExecErr ε) α × World α :=
  let methodName := opts.method.getD method
  let estimatedCu := strategyEstimatedCu opts method
  let label := opts.label.getD methodName
  let cacheKey : Option String :=
    if opts.cacheable && cfg.cacheEnabled then
      some (opts.cacheKey.getD (methodName ++ "|" ++ paramsSerialised))
    else none
  let proceed : World α → Except (ExecErr ε) α × World α :=
    proceedExecute cfg clk methodName label estimatedCu cacheKey opts exec lat
  match cacheKey with
  | some key =>
      match w.strategy.cache.lookup key with
      | some entry =>
          if entry.expiresAt > clk.now then
            let st := w.strategy
            let st :=
              { st with
                  cacheStats :=
                    { st.cacheStats with
                        hits := st.cacheStats.hits + 1
                        savedCu := st.cacheStats.savedCu + entry.estimatedCu }
                  cache :=
                    updateAssoc key { entry with hits := entry.hits + 1 }
                      st.cache }
            let tr :=
              CuTracker.recordCacheHit clk entry.providerName entry.estimatedCu
                w.tracker
            (.ok entry.value, { strategy := st, tracker := tr })
          else
            proceed
              { w with
                  strategy :=
                    { w.strategy with
                        cache :=
                          w.strategy.cache.filter (fun kv => !(kv.1 == key)) } }
      | none => proceed w
  | none =>
      if cfg.cacheEnabled then
        proceed
          { w with
              strategy :=
                { w.strategy with
                    cacheStats :=
                      { w.strategy.cacheStats with
                          misses := w.strategy.cacheStats.misses + 1 } } }
      else proceed w

end ProviderStrategy

/-! ### Fixtures and claim-side definitions used by the theorems -/

/-- Sample clock used by concrete witnesses. -/
def sampleClock : Clock :=
  { now := 1000000, today := "2026-10-11", month := "2026-10"
    nowIso := "2026-10-11T00:00:00.000Z" }

/-- Sample registration: 100 CU/day, 1000 CU/month, thresholds 80/95. -/
def sampleReg : ProviderRegistration :=
  { name := "alpha", displayName := "Alpha", dailyLimit := 100
    monthlyLimit := 1000, alertThreshold := some 80
    emergencyThreshold := some 95 }

/-- Sample in-window tracker entry at 90 CU used today and this month. -/
def sampleState : ProviderUsageInternal :=
  { registration := sampleReg, dailyUsed := 90, monthlyUsed := 90
    requestCount := 3, lastUpdated := none
    lastDailyReset := some "2026-10-11", lastMonthlyReset := some "2026-10"
    cuByMethod := [], cacheHits := 0, cacheSavedCu := 0 }

/-- Sample tracker holding only the alpha provider. -/
def sampleTracker : CuTracker := ⟨[("alpha", sampleState)]⟩

/-- Status banding exactly as the specification words it: a function of the
larger of the two percentages and the two thresholds. -/
def specStatusBand (maxPercent alertThreshold emergencyThreshold : ℚ) :
    CuStatusLevel :=
  if maxPercent ≥ 100 then .exhausted
  else if maxPercent ≥ emergencyThreshold then .emergency
  else if maxPercent ≥ max alertThreshold (emergencyThreshold * (9/10)) then
    .alert
  else if maxPercent ≥ alertThreshold then .warning
  else .healthy

/-- Sample tracker whose single provider has used `q` CU of its 100 CU daily
and 1000 CU monthly limits. -/
def sampleTrackerAt (q : ℚ) : CuTracker :=
  ⟨[("alpha", { sampleState with dailyUsed := q, monthlyUsed := q })]⟩

/-- Baseline strategy configuration (every env default). -/
def defaultConfig : StrategyConfig := {}

/-- Sample provider definition on top of the sample registration. -/
def sampleProviderDef : ProviderDefinition :=
  { toProviderRegistration := sampleReg, priority := 1, role := .primary }

/-- Sample healthy provider state. -/
def sampleProvider : ProviderState :=
  { toProviderDefinition := sampleProviderDef, health := .healthy
    consecutiveFailures := 0, totalFailures := 0, totalSuccesses := 0
    averageLatencyMs := 0 }

/-- Strategy configuration with aggressive caching on (base TTL stays at the
default 30 seconds, caching enabled). -/
def aggressiveConfig : StrategyConfig := { aggressiveCaching := true }

/-- Charge applied by one recordUsage call (cuTracker.ts line 334). -/
def usageCharge (method : Option String) (cuOverride : Option ℚ) : ℚ :=
  max 0 (jsFloor (cuOverride.getD (estimateMethodCu method)))

/-- recordUsage iterated over a list of (method, costOverride) calls. -/
def recordMany (clk : Clock) (name : String)
    (calls : List (Option String × Option ℚ)) (tr : CuTracker) : CuTracker :=
  calls.foldl (fun acc c => CuTracker.recordUsage clk name c.1 c.2 acc) tr

/-- Sum of the clamped charges of a list of calls. -/
def chargeSum (calls : List (Option String × Option ℚ)) : ℚ :=
  (calls.map (fun c => usageCharge c.1 c.2)).sum

/-- Clock one day after the sample tracker's reset stamps. -/
def rolloverClock : Clock :=
  { now := 1000000, today := "2026-10-12", month := "2026-10"
    nowIso := "2026-10-12T00:00:00.000Z" }

/-- Live cache entry originating from the alpha provider. -/
def c6entry : CacheEntry ℕ :=
  { key := "k", value := 42, expiresAt := 2000000, providerName := "alpha"
    estimatedCu := 26, hits := 0, createdAt := 0, method := "eth_call" }

/-- Cacheable request with an explicit cache key. -/
def c6opts : ProviderRequestOptions :=
  { cacheable := true, cacheKey := some "k" }

/-- Strategy state holding the alpha provider and the live entry. -/
def c6strategy : StrategyState ℕ :=
  { providers := [("alpha", sampleProvider)], cache := [("k", c6entry)] }

/-- World pairing that strategy state with the sample tracker (whose alpha
counters read 90 CU, stamped for 2026-10-11). -/
def c6world : World ℕ := { strategy := c6strategy, tracker := sampleTracker }

/-- Executor that is never consulted on the cache-hit path. -/
def c6exec : String → ℕ → Except String ℕ := fun _ _ => Except.error "unused"

/-- Latency readings (unused on the cache-hit path). -/
def c6lat : ℕ → ℚ := fun _ => 0

/-- Emergency condition exactly as claim C3 words it: some provider's daily
or monthly percentage at or above that provider's own emergency threshold,
or at least the configured minimum of providers at alert-or-worse status, or
aggregate usage at or above the global emergency threshold. -/
def claimEmergencyCondition (cfg : StrategyConfig)
    (aggregated : AggregatedUsageSnapshot) : Prop :=
  (∃ p ∈ aggregated.providers,
      p.dailyPercent ≥ p.emergencyThreshold ∨
      p.monthlyPercent ≥ p.emergencyThreshold) ∨
  (aggregated.providers.filter
      (fun p =>
        decide (p.status = .alert) || decide (p.status = .emergency) ||
        decide (p.status = .exhausted))).length ≥
    cfg.emergencyProviderCount ∨
  aggregated.totals.dailyPercent ≥ cfg.emergencyDailyThreshold ∨
  aggregated.totals.monthlyPercent ≥ cfg.emergencyMonthlyThreshold

/-- The evaluator's actual condition in specification form: the per-provider
clause compares against the global thresholds (or status emergency), not
each provider's own threshold, and the count clause counts alert/emergency
statuses. -/
def emergencySpecCondition (cfg : StrategyConfig)
    (aggregated : AggregatedUsageSnapshot) : Prop :=
  (∃ p ∈ aggregated.providers,
      p.dailyPercent ≥ cfg.emergencyDailyThreshold ∨
      p.monthlyPercent ≥ cfg.emergencyMonthlyThreshold ∨
      p.status = .emergency) ∨
  (ProviderStrategy.alertsOf aggregated).length ≥
    cfg.emergencyProviderCount ∨
  aggregated.totals.dailyPercent ≥ cfg.emergencyDailyThreshold ∨
  aggregated.totals.monthlyPercent ≥ cfg.emergencyMonthlyThreshold

/-- Provider with its own emergency threshold registered at 100. -/
def c3reg1 : ProviderRegistration :=
  { name := "p1", displayName := "P1", dailyLimit := 100, monthlyLimit := 1000
    alertThreshold := some 80, emergencyThreshold := some 100 }

/-- P1 at 96% of its daily limit, inside its reset window. -/
def c3state1 : ProviderUsageInternal :=
  { registration := c3reg1, dailyUsed := 96, monthlyUsed := 96
    requestCount := 1, lastUpdated := none
    lastDailyReset := some "2026-10-11", lastMonthlyReset := some "2026-10"
    cuByMethod := [], cacheHits := 0, cacheSavedCu := 0 }

/-- Large second provider with no usage. -/
def c3reg2 : ProviderRegistration :=
  { name := "p2", displayName := "P2", dailyLimit := 100000
    monthlyLimit := 1000000, alertThreshold := some 80
    emergencyThreshold := some 95 }

/-- P2 with zero counters. -/
def c3state2 : ProviderUsageInternal :=
  { registration := c3reg2, dailyUsed := 0, monthlyUsed := 0
    requestCount := 0, lastUpdated := none
    lastDailyReset := some "2026-10-11", lastMonthlyReset := some "2026-10"
    cuByMethod := [], cacheHits := 0, cacheSavedCu := 0 }

/-- Tracker holding p1 and p2. -/
def c3tracker : CuTracker := ⟨[("p1", c3state1), ("p2", c3state2)]⟩

/-- World with that tracker and no manual override. -/
def c3world : World ℕ :=
  { strategy := { providers := [], cache := [] }, tracker := c3tracker }

/-- Priority-sorted provider values of a strategy state, as the round_robin
branch of buildProviderOrder computes them. -/
def sortedByPriority {α : Type} (st : StrategyState α) : List ProviderState :=
  jsSortBy (fun a b => decide (a.priority ≤ b.priority))
    (st.providers.map (fun kv => kv.2))

/-- Iterated candidate building under default options: the first-choice
provider of each of m successive selections, with the final world. -/
def rrRun {α : Type} (cfg : StrategyConfig) (clk : Clock) :
    ℕ → World α → List (Option ProviderState) × World α
  | 0, w => ([], w)
  | m + 1, w =>
      let built := ProviderStrategy.buildProviderOrder cfg clk {} w
      let rest := rrRun cfg clk m { w with strategy := built.2 }
      (built.1.head? :: rest.1, rest.2)

/-- Round-robin strategy configuration. -/
def rrConfig : StrategyConfig := { strategy := "round_robin" }

/-- First round-robin provider (priority 1). -/
def rrProviderA : ProviderState :=
  { name := "a", displayName := "A", dailyLimit := 100, monthlyLimit := 1000
    priority := 1, role := .primary, health := .healthy
    consecutiveFailures := 0, totalFailures := 0, totalSuccesses := 0
    averageLatencyMs := 0 }

/-- Second round-robin provider (priority 2). -/
def rrProviderB : ProviderState :=
  { name := "b", displayName := "B", dailyLimit := 100, monthlyLimit := 1000
    priority := 2, role := .secondary, health := .healthy
    consecutiveFailures := 0, totalFailures := 0, totalSuccesses := 0
    averageLatencyMs := 0 }

/-- World with two providers and cursor 0. -/
def rrWorld : World ℕ :=
  { strategy := { providers := [("a", rrProviderA), ("b", rrProviderB)]
                  cache := [] }
    tracker := ⟨[]⟩ }

/-- Registration of the single provider a. -/
def c9reg : ProviderRegistration :=
  { name := "a", displayName := "A", dailyLimit := 100, monthlyLimit := 1000
    alertThreshold := some 80, emergencyThreshold := some 95 }

/-- Usage state for the single provider a: 3 CU used, inside its window. -/
def c9state : ProviderUsageInternal :=
  { registration := c9reg
    dailyUsed := 3, monthlyUsed := 3, requestCount := 1, lastUpdated := none
    lastDailyReset := some "2026-10-11", lastMonthlyReset := some "2026-10"
    cuByMethod := [], cacheHits := 0, cacheSavedCu := 0 }

/-- Tracker holding provider a. -/
def c9tracker : CuTracker := ⟨[("a", c9state)]⟩

/-- World with the healthy provider a and that tracker. -/
def c9world : World ℕ :=
  { strategy := { providers := [("a", rrProviderA)], cache := [] }
    tracker := c9tracker }

/-- Executor that always fails with the error "boom". -/
def failExec : String → ℕ → Except String ℕ := fun _ _ => Except.error "boom"

/-- Request overriding the estimated cost to 0 CU. -/
def c10opts : ProviderRequestOptions := { cuOverride := some 0 }

/-- Executor that always succeeds with value 7. -/
def okExec : String → ℕ → Except String ℕ := fun _ _ => Except.ok 7

/-! ### Theorems -/

/-- maybeReset is the identity on a state whose reset keys match the clock
(the "same reset window" situation). -/
theorem maybeReset_id (clk : Clock) (s : ProviderUsageInternal)
    (hd : s.lastDailyReset = some clk.today)
    (hm : s.lastMonthlyReset = some clk.month) :
    CuTracker.maybeReset clk s = s := by
  simp [CuTracker.maybeReset, hd, hm]

/-- C1: for a registered provider in its current reset window, `canUse` with
no options is false exactly when the projected daily or monthly total would
exceed the respective limit (so `need = dailyLimit - dailyUsed` is still
allowed), and with `allowNearLimit` set it returns true whenever current
daily and monthly usage are both strictly below their limits, regardless of
how far `need` overshoots. -/
theorem canUse_quota_boundary (clk : Clock) (tr : CuTracker) (name : String)
    (s : ProviderUsageInternal) (need : ℚ)
    (hreg : tr.lookup name = some s)
    (hd : s.lastDailyReset = some clk.today)
    (hm : s.lastMonthlyReset = some clk.month) :
    ((CuTracker.canUse clk name need {} tr).1 = false ↔
      s.registration.dailyLimit < s.dailyUsed + need ∨
      s.registration.monthlyLimit < s.monthlyUsed + need) ∧
    (s.dailyUsed < s.registration.dailyLimit →
      s.monthlyUsed < s.registration.monthlyLimit →
      (CuTracker.canUse clk name need { allowNearLimit := true } tr).1
        = true) := by
  have hid := maybeReset_id clk s hd hm
  constructor
  · simp [CuTracker.canUse, hreg, hid, CanUseOptions.allowNearLimit,
      CanUseOptions.ignoreDaily, CanUseOptions.ignoreMonthly, not_le]
    rw [imp_iff_not_or, not_le]
  · intro h1 h2
    simp [CuTracker.canUse, hreg, hid, CanUseOptions.allowNearLimit,
      CanUseOptions.ignoreDaily, CanUseOptions.ignoreMonthly, h1, h2]

/-- Witness instantiating C1 at the sample tracker with need 10. -/
theorem canUse_quota_boundary_witness :
    ((CuTracker.canUse sampleClock "alpha" (10:ℚ) {} sampleTracker).1 = false ↔
      sampleState.registration.dailyLimit < sampleState.dailyUsed + 10 ∨
      sampleState.registration.monthlyLimit < sampleState.monthlyUsed + 10) ∧
    (sampleState.dailyUsed < sampleState.registration.dailyLimit →
      sampleState.monthlyUsed < sampleState.registration.monthlyLimit →
      (CuTracker.canUse sampleClock "alpha" (10:ℚ)
        { allowNearLimit := true } sampleTracker).1 = true) :=
  canUse_quota_boundary sampleClock sampleTracker "alpha" sampleState 10
    (by simp [sampleTracker, CuTracker.lookup, List.lookup]) (by rfl) (by rfl)

/-- C5: the reported status is exactly the specification's banding of
`max(dailyPercent, monthlyPercent)` against the registration's thresholds,
and with thresholds 80/95 a provider at 90% daily usage reports alert, at
96% emergency, at 100% exhausted. -/
theorem status_banding :
    (∀ (dp mp : ℚ) (reg : ProviderRegistration),
      CuTracker.computeStatusLevel dp mp reg =
        specStatusBand (max dp mp)
          (reg.alertThreshold.getD DEFAULT_ALERT_THRESHOLD)
          (reg.emergencyThreshold.getD DEFAULT_EMERGENCY_THRESHOLD)) ∧
    (CuTracker.getUsage sampleClock "alpha" (sampleTrackerAt 90)).status
      = .alert ∧
    (CuTracker.getUsage sampleClock "alpha" (sampleTrackerAt 96)).status
      = .emergency ∧
    (CuTracker.getUsage sampleClock "alpha" (sampleTrackerAt 100)).status
      = .exhausted := by
  refine ⟨fun dp mp reg => rfl, ?_, ?_, ?_⟩ <;>
    · simp [CuTracker.getUsage, CuTracker.lookup, List.lookup, sampleTrackerAt,
        sampleState, sampleReg, sampleClock, CuTracker.maybeReset,
        CuTracker.computeStatusLevel, max_def]
      norm_num

/-- C4: handleFailure increments consecutiveFailures and goes offline with a
cooldown deadline exactly when the new count reaches the threshold (degraded
otherwise); handleSuccess resets the count and restores healthy from any
state; concretely, at threshold 3 three failures land offline with
offlineUntil set and one success restores healthy. -/
theorem health_state_machine :
    (∀ (cfg : StrategyConfig) (clk : Clock) (p : ProviderState),
      (ProviderStrategy.handleFailure cfg clk p).consecutiveFailures
          = p.consecutiveFailures + 1 ∧
      (ProviderStrategy.handleFailure cfg clk p).health
          = (if ((p.consecutiveFailures + 1 : ℕ) : ℚ) ≥ cfg.failureThreshold
             then .offline else .degraded) ∧
      (ProviderStrategy.handleFailure cfg clk p).offlineUntil
          = (if ((p.consecutiveFailures + 1 : ℕ) : ℚ) ≥ cfg.failureThreshold
             then some (clk.now + cfg.offlineCooldownMs)
             else p.offlineUntil)) ∧
    (∀ (clk : Clock) (latency : ℚ) (p : ProviderState),
      (ProviderStrategy.handleSuccess clk latency p).consecutiveFailures = 0 ∧
      (ProviderStrategy.handleSuccess clk latency p).health = .healthy) ∧
    ((ProviderStrategy.handleFailure defaultConfig sampleClock
        (ProviderStrategy.handleFailure defaultConfig sampleClock
          (ProviderStrategy.handleFailure defaultConfig sampleClock
            sampleProvider))).health = .offline ∧
     (ProviderStrategy.handleFailure defaultConfig sampleClock
        (ProviderStrategy.handleFailure defaultConfig sampleClock
          (ProviderStrategy.handleFailure defaultConfig sampleClock
            sampleProvider))).offlineUntil
          = some (sampleClock.now + defaultConfig.offlineCooldownMs) ∧
     (ProviderStrategy.handleFailure defaultConfig sampleClock
        (ProviderStrategy.handleFailure defaultConfig sampleClock
          sampleProvider)).health = .degraded ∧
     (ProviderStrategy.handleSuccess sampleClock 5
        (ProviderStrategy.handleFailure defaultConfig sampleClock
          (ProviderStrategy.handleFailure defaultConfig sampleClock
            (ProviderStrategy.handleFailure defaultConfig sampleClock
              sampleProvider)))).health = .healthy ∧
     (ProviderStrategy.handleSuccess sampleClock 5
        (ProviderStrategy.handleFailure defaultConfig sampleClock
          (ProviderStrategy.handleFailure defaultConfig sampleClock
            (ProviderStrategy.handleFailure defaultConfig sampleClock
              sampleProvider)))).consecutiveFailures = 0) := by
  refine ⟨fun cfg clk p => ?_, fun clk latency p => ?_, ?_⟩
  · refine ⟨?_, ?_, ?_⟩ <;>
      · simp only [ProviderStrategy.handleFailure]
        split <;> simp_all
  · simp [ProviderStrategy.handleSuccess]
    split <;> simp
  · refine ⟨?_, ?_, ?_, ?_, ?_⟩ <;>
      · simp [ProviderStrategy.handleFailure, ProviderStrategy.handleSuccess,
          sampleProvider, sampleProviderDef, defaultConfig, sampleClock]
        norm_num

/-- C2 counterexample: with base TTL 30, aggressive caching enabled and
emergency mode active, the resolved TTL is 60 — the larger of the two
extensions — not the composed 30 x 1.5 x 2 = 90 the claim predicts. -/
theorem cacheTtl_compose_counterexample :
    ProviderStrategy.resolveCacheTtlSeconds aggressiveConfig true none = 60 ∧
    ProviderStrategy.resolveCacheTtlSeconds aggressiveConfig true none ≠
      aggressiveConfig.cacheBaseTtlSeconds * (3/2) * 2 := by
  constructor <;>
    · simp [ProviderStrategy.resolveCacheTtlSeconds,
        ProviderStrategy.resolvedBaseTtl, aggressiveConfig, jsFloor, max_def]
      norm_num

/-- C2 amended: with no caller override and caching enabled, the resolved
TTL is the floor of the base TTL times a single effective multiplier — 2
while emergency mode is active, else 1.5 under aggressive caching, else 1;
the two extensions combine by maximum, not by product. -/
theorem cacheTtl_max_semantics (cfg : StrategyConfig) (em : Bool)
    (hc : cfg.cacheEnabled = true) (hb : 0 ≤ cfg.cacheBaseTtlSeconds) :
    ProviderStrategy.resolveCacheTtlSeconds cfg em none =
      jsFloor (cfg.cacheBaseTtlSeconds *
        (if em then 2 else if cfg.aggressiveCaching then 3/2 else 1)) := by
  have h32 : cfg.cacheBaseTtlSeconds ≤ cfg.cacheBaseTtlSeconds * (3/2) := by
    nlinarith
  have h2 : cfg.cacheBaseTtlSeconds ≤ cfg.cacheBaseTtlSeconds * 2 := by
    nlinarith
  have h322 :
      cfg.cacheBaseTtlSeconds * (3/2) ≤ cfg.cacheBaseTtlSeconds * 2 := by
    nlinarith
  simp only [ProviderStrategy.resolveCacheTtlSeconds, hc,
    ProviderStrategy.resolvedBaseTtl]
  rcases em <;> rcases hA : cfg.aggressiveCaching <;>
    simp [hA, max_eq_right, h32, h2, h322, max_eq_right h32,
      max_eq_right h2, max_eq_right h322]

/-- Witness instantiating the amended C2 at the aggressive configuration
with emergency mode active: the TTL is 60 = floor(30 x 2). -/
theorem cacheTtl_max_semantics_witness :
    ProviderStrategy.resolveCacheTtlSeconds aggressiveConfig true none =
      jsFloor (aggressiveConfig.cacheBaseTtlSeconds *
        (if true then 2
         else if aggressiveConfig.aggressiveCaching then 3/2 else 1)) :=
  cacheTtl_max_semantics aggressiveConfig true (by rfl) (by norm_num [aggressiveConfig])

/-- Looking up the key just written by updateAssoc. -/
theorem lookup_updateAssoc {β : Type} (k : String) (v : β)
    (l : List (String × β)) (h : (l.lookup k).isSome) :
    (updateAssoc k v l).lookup k = some v := by
  induction l with
  | nil => simp [List.lookup] at h
  | cons hd tl ih =>
      by_cases hk : hd.1 = k
      · simp [updateAssoc, hk, List.lookup]
      · have hne : (k == hd.1) = false := by
          simp [Ne.symm hk]
        simp only [updateAssoc, List.lookup, hk, if_false, hne] at h ⊢
        exact ih h

/-- updateAssoc leaves every other key untouched (used by frame claims). -/
theorem lookup_updateAssoc_ne {β : Type} {k other : String} (v : β)
    (l : List (String × β)) (h : other ≠ k) :
    (updateAssoc k v l).lookup other = l.lookup other := by
  have hbeq : (other == k) = false := by simp [h]
  induction l with
  | nil => simp [updateAssoc]
  | cons hd tl ih =>
      by_cases hk : hd.1 = k
      · simp [updateAssoc, hk, List.lookup, hbeq]
      · simp only [updateAssoc, hk, if_false, List.lookup]
        by_cases ho : other = hd.1 <;> simp [ho, ih]

/-- One in-window recordUsage call rewrites the provider state exactly as
claimed: reset check first (a no-op in-window), then add the clamped charge
to the daily, monthly and per-method counters and bump the request count. -/
theorem recordUsage_inWindow (clk : Clock) (name : String)
    (method : Option String) (cuOverride : Option ℚ) (tr : CuTracker)
    (s : ProviderUsageInternal) (hreg : tr.lookup name = some s)
    (hd : s.lastDailyReset = some clk.today)
    (hm : s.lastMonthlyReset = some clk.month) :
    (CuTracker.recordUsage clk name method cuOverride tr).lookup name = some
      { s with
          dailyUsed := s.dailyUsed + usageCharge method cuOverride
          monthlyUsed := s.monthlyUsed + usageCharge method cuOverride
          requestCount := s.requestCount + 1
          cuByMethod := bumpAssoc (normaliseMethod method)
            (usageCharge method cuOverride) s.cuByMethod
          lastUpdated := some clk.nowIso } := by
  have hid := maybeReset_id clk s hd hm
  simp only [CuTracker.lookup] at hreg
  have hsome : (tr.providers.lookup name).isSome := by simp [hreg]
  simp only [CuTracker.recordUsage, CuTracker.lookup, hreg, hid, usageCharge]
  rw [lookup_updateAssoc _ _ _ hsome]

/-- C7: recordUsage on an unknown provider is a silent no-op; and on a
registered provider, N in-window calls add the sum of the clamped charges to
dailyUsed and monthlyUsed and add N to requestCount. -/
theorem recordUsage_accumulates :
    (∀ (clk : Clock) (name : String) (method : Option String)
        (cuOverride : Option ℚ) (tr : CuTracker),
      tr.lookup name = none →
        CuTracker.recordUsage clk name method cuOverride tr = tr) ∧
    (∀ (clk : Clock) (name : String)
        (calls : List (Option String × Option ℚ)) (tr : CuTracker)
        (s : ProviderUsageInternal),
      tr.lookup name = some s →
      s.lastDailyReset = some clk.today →
      s.lastMonthlyReset = some clk.month →
      ∃ s', (recordMany clk name calls tr).lookup name = some s' ∧
        s'.dailyUsed = s.dailyUsed + chargeSum calls ∧
        s'.monthlyUsed = s.monthlyUsed + chargeSum calls ∧
        s'.requestCount = s.requestCount + calls.length) := by
  constructor
  · intro clk name method cuOverride tr hnone
    simp only [CuTracker.lookup] at hnone
    simp [CuTracker.recordUsage, CuTracker.lookup, hnone]
  · intro clk name calls
    induction calls with
    | nil =>
        intro tr s hreg hd hm
        exact ⟨s, hreg, by simp [chargeSum], by simp [chargeSum], by simp⟩
    | cons c cs ih =>
        intro tr s hreg hd hm
        have hstep := recordUsage_inWindow clk name c.1 c.2 tr s hreg hd hm
        obtain ⟨s', hs', hdaily, hmonthly, hcount⟩ :=
          ih (CuTracker.recordUsage clk name c.1 c.2 tr) _ hstep hd hm
        refine ⟨s', ?_, ?_, ?_, ?_⟩
        · simpa [recordMany] using hs'
        · rw [hdaily]; simp [chargeSum]; ring
        · rw [hmonthly]; simp [chargeSum]; ring
        · rw [hcount]; simp; ring

/-- Witness instantiating C7: recordUsage on the unknown name beta leaves
the sample tracker unchanged, and two in-window calls (an eth_call estimate
of 26 CU and an override of 2.5 CU, floored to 2) add 28 CU and 2 requests
to the alpha provider. -/
theorem recordUsage_accumulates_witness :
    (CuTracker.recordUsage sampleClock "beta" (some "eth_call") none
      sampleTracker = sampleTracker) ∧
    (∃ s', (recordMany sampleClock "alpha"
        [(some "eth_call", none), (some "custom", some (5/2))]
        sampleTracker).lookup "alpha" = some s' ∧
      s'.dailyUsed = sampleState.dailyUsed +
        chargeSum [(some "eth_call", none), (some "custom", some (5/2))] ∧
      s'.monthlyUsed = sampleState.monthlyUsed +
        chargeSum [(some "eth_call", none), (some "custom", some (5/2))] ∧
      s'.requestCount = sampleState.requestCount +
        ([(some "eth_call", none), (some "custom", some (5/2))] :
          List (Option String × Option ℚ)).length) :=
  ⟨recordUsage_accumulates.1 sampleClock "beta" (some "eth_call") none
      sampleTracker (by simp [sampleTracker, CuTracker.lookup, List.lookup]),
   recordUsage_accumulates.2 sampleClock "alpha"
      [(some "eth_call", none), (some "custom", some (5/2))] sampleTracker
      sampleState (by simp [sampleTracker, CuTracker.lookup, List.lookup])
      (by rfl) (by rfl)⟩

/-- Effect of recordCacheHit on any provider still inside its reset window:
dailyUsed, monthlyUsed and requestCount are untouched; only the named
provider's cacheHits and cacheSavedCu are bumped. -/
theorem recordCacheHit_frame (clk : Clock) (name : String) (cuSaved : ℚ)
    (tr : CuTracker) (other : String) (s : ProviderUsageInternal)
    (hreg : tr.lookup other = some s)
    (hd : s.lastDailyReset = some clk.today)
    (hm : s.lastMonthlyReset = some clk.month) :
    ∃ s',
      (CuTracker.recordCacheHit clk name cuSaved tr).lookup other = some s' ∧
      s'.dailyUsed = s.dailyUsed ∧ s'.monthlyUsed = s.monthlyUsed ∧
      s'.requestCount = s.requestCount ∧
      s'.cacheHits = (if other = name then s.cacheHits + 1 else s.cacheHits) ∧
      s'.cacheSavedCu = s.cacheSavedCu +
        (if other = name then max 0 (jsFloor cuSaved) else 0) := by
  by_cases ho : other = name
  · subst ho
    have hid := maybeReset_id clk s hd hm
    simp only [CuTracker.lookup] at hreg
    refine ⟨{ s with cacheHits := s.cacheHits + 1
                     cacheSavedCu := s.cacheSavedCu + max 0 (jsFloor cuSaved) },
      ?_, rfl, rfl, rfl, by simp, by simp⟩
    simp only [CuTracker.recordCacheHit, CuTracker.lookup, hreg, hid]
    rw [lookup_updateAssoc _ _ _ (by simp [hreg])]
  · cases hn : tr.lookup name with
    | none =>
        refine ⟨s, ?_, rfl, rfl, rfl, by simp [ho], by simp [ho]⟩
        simp only [CuTracker.lookup] at hn hreg ⊢
        simp [CuTracker.recordCacheHit, CuTracker.lookup, hn, hreg]
    | some st =>
        refine ⟨s, ?_, rfl, rfl, rfl, by simp [ho], by simp [ho]⟩
        simp only [CuTracker.lookup] at hn hreg ⊢
        simp only [CuTracker.recordCacheHit, CuTracker.lookup, hn]
        rw [lookup_updateAssoc_ne _ _ ho]
        exact hreg

/-- C6 amended: a cacheable call whose key holds a live entry returns the
cached value for every executor (the executor is never consulted), bumps
only the cache statistics, the entry's hit count and the originating
provider's cacheHits/cacheSavedCu, and leaves dailyUsed, monthlyUsed and
requestCount of every provider still inside its reset window unchanged. -/
theorem cacheHit_frame {α ε : Type} (cfg : StrategyConfig) (clk : Clock)
    (method params : String) (exec : String → ℕ → Except ε α) (lat : ℕ → ℚ)
    (opts : ProviderRequestOptions) (w : World α) (key : String)
    (entry : CacheEntry α)
    (hc : cfg.cacheEnabled = true) (hca : opts.cacheable = true)
    (hkey : opts.cacheKey = some key)
    (hlook : w.strategy.cache.lookup key = some entry)
    (hlive : entry.expiresAt > clk.now) :
    ProviderStrategy.executeWithBestProvider cfg clk method params exec lat
        opts w =
      (Except.ok entry.value,
        { strategy :=
            { w.strategy with
                cacheStats :=
                  { w.strategy.cacheStats with
                      hits := w.strategy.cacheStats.hits + 1
                      savedCu :=
                        w.strategy.cacheStats.savedCu + entry.estimatedCu }
                cache :=
                  updateAssoc key { entry with hits := entry.hits + 1 }
                    w.strategy.cache }
          tracker :=
            CuTracker.recordCacheHit clk entry.providerName entry.estimatedCu
              w.tracker }) ∧
    (∀ (other : String) (s : ProviderUsageInternal),
      w.tracker.lookup other = some s →
      s.lastDailyReset = some clk.today →
      s.lastMonthlyReset = some clk.month →
      ∃ s',
        (ProviderStrategy.executeWithBestProvider cfg clk method params exec
            lat opts w).2.tracker.lookup other = some s' ∧
        s'.dailyUsed = s.dailyUsed ∧ s'.monthlyUsed = s.monthlyUsed ∧
        s'.requestCount = s.requestCount ∧
        s'.cacheHits =
          (if other = entry.providerName then s.cacheHits + 1
           else s.cacheHits) ∧
        s'.cacheSavedCu = s.cacheSavedCu +
          (if other = entry.providerName then max 0 (jsFloor entry.estimatedCu)
           else 0)) := by
  have hrun :
      ProviderStrategy.executeWithBestProvider cfg clk method params exec lat
          opts w =
        (Except.ok entry.value,
          { strategy :=
              { w.strategy with
                  cacheStats :=
                    { w.strategy.cacheStats with
                        hits := w.strategy.cacheStats.hits + 1
                        savedCu :=
                          w.strategy.cacheStats.savedCu + entry.estimatedCu }
                  cache :=
                    updateAssoc key { entry with hits := entry.hits + 1 }
                      w.strategy.cache }
            tracker :=
              CuTracker.recordCacheHit clk entry.providerName
                entry.estimatedCu w.tracker }) := by
    simp only [ProviderStrategy.executeWithBestProvider, hca, hc, hkey,
      Bool.and_self, if_true, Option.getD_some, hlook, hlive, if_pos]
  refine ⟨hrun, fun other s hreg hd hm => ?_⟩
  rw [hrun]
  exact recordCacheHit_frame clk entry.providerName entry.estimatedCu
    w.tracker other s hreg hd hm

/-- C6 counterexample: on 2026-10-12 the same cache-hit call still returns
the cached value without touching the executor, but the routine reset check
inside recordCacheHit zeroes alpha's dailyUsed (90 before the call, 0
after) — the claim's "leaves every provider's dailyUsed unchanged" fails
once the reset window has rolled over. -/
theorem cacheHit_frame_counterexample :
    (ProviderStrategy.executeWithBestProvider defaultConfig rolloverClock
        "eth_call" "" c6exec c6lat c6opts c6world).1 = Except.ok 42 ∧
    (c6world.tracker.lookup "alpha").map (fun s => s.dailyUsed) = some 90 ∧
    ((ProviderStrategy.executeWithBestProvider defaultConfig rolloverClock
        "eth_call" "" c6exec c6lat c6opts c6world).2.tracker.lookup
        "alpha").map (fun s => s.dailyUsed) = some 0 := by
  refine ⟨?_, ?_, ?_⟩ <;>
    simp [ProviderStrategy.executeWithBestProvider,
      CuTracker.recordCacheHit, CuTracker.maybeReset, CuTracker.lookup,
      List.lookup, updateAssoc, defaultConfig, rolloverClock, c6exec, c6lat,
      c6opts, c6world, c6strategy, c6entry, sampleTracker, sampleState,
      sampleReg, jsFloor]
  all_goals norm_num

/-- Witness instantiating the amended C6 inside the reset window: at the
sample clock the same call returns the cached value and leaves the alpha
counters untouched apart from the cache-hit statistics. -/
theorem cacheHit_frame_witness :
    ProviderStrategy.executeWithBestProvider defaultConfig sampleClock
        "eth_call" "" c6exec c6lat c6opts c6world =
      (Except.ok c6entry.value,
        { strategy :=
            { c6world.strategy with
                cacheStats :=
                  { c6world.strategy.cacheStats with
                      hits := c6world.strategy.cacheStats.hits + 1
                      savedCu :=
                        c6world.strategy.cacheStats.savedCu +
                          c6entry.estimatedCu }
                cache :=
                  updateAssoc "k" { c6entry with hits := c6entry.hits + 1 }
                    c6world.strategy.cache }
          tracker :=
            CuTracker.recordCacheHit sampleClock c6entry.providerName
              c6entry.estimatedCu c6world.tracker }) ∧
    (∀ (other : String) (s : ProviderUsageInternal),
      c6world.tracker.lookup other = some s →
      s.lastDailyReset = some sampleClock.today →
      s.lastMonthlyReset = some sampleClock.month →
      ∃ s',
        (ProviderStrategy.executeWithBestProvider defaultConfig sampleClock
            "eth_call" "" c6exec c6lat c6opts c6world).2.tracker.lookup
            other = some s' ∧
        s'.dailyUsed = s.dailyUsed ∧ s'.monthlyUsed = s.monthlyUsed ∧
        s'.requestCount = s.requestCount ∧
        s'.cacheHits =
          (if other = c6entry.providerName then s.cacheHits + 1
           else s.cacheHits) ∧
        s'.cacheSavedCu = s.cacheSavedCu +
          (if other = c6entry.providerName
           then max 0 (jsFloor c6entry.estimatedCu) else 0)) :=
  cacheHit_frame defaultConfig sampleClock "eth_call" "" c6exec c6lat c6opts
    c6world "k" c6entry (by rfl) (by rfl) (by rfl)
    (by simp [c6world, c6strategy, List.lookup])
    (by norm_num [c6entry, sampleClock])

/-- Non-emptiness of a Bool-filtered list as an existential. -/
theorem filter_nonempty_iff {β : Type} (p : β → Bool) (l : List β) :
    (!(l.filter p).isEmpty) = true ↔ ∃ x ∈ l, p x = true := by
  simp [List.isEmpty_iff, List.filter_eq_nil_iff, not_forall]

/-- The activation boolean agrees with its specification form. -/
theorem shouldActivate_iff (cfg : StrategyConfig)
    (aggregated : AggregatedUsageSnapshot) :
    ProviderStrategy.shouldActivateEmergency cfg aggregated = true ↔
      emergencySpecCondition cfg aggregated := by
  simp only [ProviderStrategy.shouldActivateEmergency, emergencySpecCondition,
    ProviderStrategy.emergencyProvidersOf, Bool.or_eq_true,
    filter_nonempty_iff, decide_eq_true_eq, or_assoc]

/-- With no manual override, evaluateEmergency leaves emergency mode active
exactly when the activation condition holds (both directions: it activates
and deactivates). -/
theorem evaluateEmergency_active {α : Type} (cfg : StrategyConfig)
    (clk : Clock) (source : String) (w : World α)
    (hman : w.strategy.manualEmergency = false) :
    (ProviderStrategy.evaluateEmergency cfg clk source w).strategy.emergencyActive =
      ProviderStrategy.shouldActivateEmergency cfg
        (CuTracker.getAggregatedUsage clk w.tracker) := by
  simp only [ProviderStrategy.evaluateEmergency, hman]
  rcases hs : ProviderStrategy.shouldActivateEmergency cfg
      (CuTracker.getAggregatedUsage clk w.tracker) <;>
    rcases ha : w.strategy.emergencyActive <;>
      simp [hs, ha]

/-- C3 amended: after evaluateEmergency with no manual override, emergency
mode is active iff some provider's daily% or monthly% is at or above the
global emergency threshold or that provider's status is emergency, or the
count of providers at status alert or emergency reaches the configured
minimum, or aggregate usage crosses the global threshold; it deactivates the
moment none of these hold. -/
theorem emergency_evaluation {α : Type} (cfg : StrategyConfig) (clk : Clock)
    (source : String) (w : World α)
    (hman : w.strategy.manualEmergency = false) :
    ((ProviderStrategy.evaluateEmergency cfg clk source
        w).strategy.emergencyActive = true ↔
      emergencySpecCondition cfg
        (CuTracker.getAggregatedUsage clk w.tracker)) := by
  rw [evaluateEmergency_active cfg clk source w hman, shouldActivate_iff]

/-- C3 counterexample: p1 sits at 96% daily with its own emergency threshold
registered at 100, p2 is idle and huge. None of the claim's conditions hold
(96 < 100, only one alert-status provider, aggregate under 1%), yet
evaluateEmergency activates emergency mode, because the code compares each
provider against the global 95% threshold, not the provider's own. -/
theorem emergency_ownThreshold_counterexample :
    c3world.strategy.manualEmergency = false ∧
    (ProviderStrategy.evaluateEmergency defaultConfig sampleClock "tick"
        c3world).strategy.emergencyActive = true ∧
    ¬ claimEmergencyCondition defaultConfig
        (CuTracker.getAggregatedUsage sampleClock c3world.tracker) := by
  refine ⟨rfl, ?_, ?_⟩
  · simp [ProviderStrategy.evaluateEmergency,
      ProviderStrategy.shouldActivateEmergency,
      ProviderStrategy.emergencyProvidersOf, ProviderStrategy.alertsOf,
      CuTracker.getAggregatedUsage, CuTracker.getAllUsage, CuTracker.getUsage,
      CuTracker.maybeReset, CuTracker.lookup, List.lookup,
      CuTracker.computeStatusLevel, defaultConfig, sampleClock, c3world,
      c3tracker, c3state1, c3state2, c3reg1, c3reg2, max_def]
    norm_num
  · simp [claimEmergencyCondition,
      CuTracker.getAggregatedUsage, CuTracker.getAllUsage, CuTracker.getUsage,
      CuTracker.maybeReset, CuTracker.lookup, List.lookup,
      CuTracker.computeStatusLevel, defaultConfig, sampleClock, c3world,
      c3tracker, c3state1, c3state2, c3reg1, c3reg2, max_def]
    norm_num
    decide

/-- Witness instantiating the amended C3 at the counterexample world: the
evaluator's specification condition does hold there (p1 is at 96% daily
against the global 95% threshold), matching the activation. -/
theorem emergency_evaluation_witness :
    ((ProviderStrategy.evaluateEmergency defaultConfig sampleClock "tick"
        c3world).strategy.emergencyActive = true ↔
      emergencySpecCondition defaultConfig
        (CuTracker.getAggregatedUsage sampleClock c3world.tracker)) :=
  emergency_evaluation defaultConfig sampleClock "tick" c3world (by rfl)

/-- insertKeep is a cons up to permutation. -/
theorem insertKeep_perm {β : Type} (le : β → β → Bool) (a : β) (l : List β) :
    List.Perm (insertKeep le a l) (a :: l) := by
  induction l with
  | nil => simp [insertKeep]
  | cons b t ih =>
      simp only [insertKeep]
      split
      · exact (ih.cons b).trans (List.Perm.swap a b t)
      · exact List.Perm.refl _

/-- The insertion fold is the input followed by the accumulator, up to
permutation. -/
theorem foldl_insertKeep_perm {β : Type} (le : β → β → Bool) :
    ∀ (l acc : List β),
      List.Perm (l.foldl (fun acc a => insertKeep le a acc) acc) (acc ++ l)
  | [], acc => by simp
  | x :: xs, acc => by
      have h1 := foldl_insertKeep_perm le xs (insertKeep le x acc)
      have h2 : List.Perm (insertKeep le x acc ++ xs) (acc ++ x :: xs) :=
        ((insertKeep_perm le x acc).append_right xs).trans
          List.perm_middle.symm
      simpa using h1.trans h2

/-- jsSortBy permutes its input. -/
theorem jsSortBy_perm {β : Type} (le : β → β → Bool) (l : List β) :
    List.Perm (jsSortBy le l) l := by
  simpa [jsSortBy] using foldl_insertKeep_perm le l []

/-- jsSortBy preserves length. -/
theorem length_jsSortBy {β : Type} (le : β → β → Bool) (l : List β) :
    (jsSortBy le l).length = l.length :=
  (jsSortBy_perm le l).length_eq

/-- Under the round_robin strategy with default options and emergency mode
off, buildProviderOrder returns the priority-sorted list rotated by the
cursor and advances the cursor by one modulo the provider count. -/
theorem buildProviderOrder_rr {α : Type} (cfg : StrategyConfig) (clk : Clock)
    (w : World α)
    (hstrat : cfg.strategy = "round_robin")
    (hem : w.strategy.emergencyActive = false)
    (hne : w.strategy.providers ≠ []) :
    ProviderStrategy.buildProviderOrder cfg clk {} w =
      ((sortedByPriority w.strategy).drop w.strategy.roundRobinCounter ++
        (sortedByPriority w.strategy).take w.strategy.roundRobinCounter,
       { w.strategy with
           roundRobinCounter := (w.strategy.roundRobinCounter + 1) %
             max 1 (sortedByPriority w.strategy).length }) := by
  have hne' : (w.strategy.providers.map (fun kv => kv.2)).isEmpty = false := by
    simp [List.isEmpty_iff, hne]
  simp [ProviderStrategy.buildProviderOrder, hstrat, hem, hne', sortedByPriority]

/-- Characterization of rrRun under round_robin: the j-th selection is the
sorted list's entry at cursor+j modulo the provider count, and the final
cursor has advanced by m modulo the provider count. -/
theorem rrRun_characterization {α : Type} (cfg : StrategyConfig) (clk : Clock)
    (hstrat : cfg.strategy = "round_robin") :
    ∀ (m : ℕ) (w : World α),
      w.strategy.emergencyActive = false →
      w.strategy.providers ≠ [] →
      w.strategy.roundRobinCounter < w.strategy.providers.length →
      (rrRun cfg clk m w).1 = (List.range m).map
        (fun j => (sortedByPriority w.strategy)[(w.strategy.roundRobinCounter
          + j) % w.strategy.providers.length]?) ∧
      (rrRun cfg clk m w).2 = { w with strategy := { w.strategy with
        roundRobinCounter := (w.strategy.roundRobinCounter + m) %
          w.strategy.providers.length } } := by
  intro m
  induction m with
  | zero =>
      intro w hem hne hc
      refine ⟨by simp [rrRun], ?_⟩
      simp [rrRun, Nat.mod_eq_of_lt hc]
  | succ m ih =>
      intro w hem hne hc
      have hn : 0 < w.strategy.providers.length := List.length_pos.mpr hne
      have hlen : (sortedByPriority w.strategy).length =
          w.strategy.providers.length := by
        simp [sortedByPriority, length_jsSortBy]
      have hmax : max 1 (sortedByPriority w.strategy).length =
          w.strategy.providers.length := by
        rw [hlen]; exact Nat.max_eq_right hn
      have hbuilt := buildProviderOrder_rr cfg clk w hstrat hem hne
      set c := w.strategy.roundRobinCounter with hcdef
      set n := w.strategy.providers.length with hndef
      set w2 : World α := { w with strategy := { w.strategy with
        roundRobinCounter := (c + 1) % n } } with hw2def
      have hwstep : ({ w with strategy :=
          (ProviderStrategy.buildProviderOrder cfg clk {} w).2 } : World α)
          = w2 := by
        rw [hbuilt, hw2def]
        dsimp only
        rw [hmax]
      obtain ⟨hih1, hih2⟩ := ih w2 hem hne (Nat.mod_lt (c + 1) hn)
      have e1 : w2.strategy.roundRobinCounter = (c + 1) % n := rfl
      have e2 : w2.strategy.providers.length = n := rfl
      have e3 : sortedByPriority w2.strategy = sortedByPriority w.strategy :=
        rfl
      rw [e1, e2, e3] at hih1
      rw [e1, e2] at hih2
      refine ⟨?_, ?_⟩
      · simp only [rrRun]
        rw [hwstep, hih1, hbuilt]
        dsimp only
        have hcn : c < (sortedByPriority w.strategy).length := by
          rw [hlen]; exact hc
        have hdropne : (sortedByPriority w.strategy).drop c ≠ [] := by
          apply List.ne_nil_of_length_pos
          rw [List.length_drop]
          omega
        rw [List.head?_append_of_ne_nil _ hdropne, List.head?_drop,
          List.range_succ_eq_map, List.map_cons, List.map_map,
          List.cons_eq_cons]
        refine ⟨by simp [Nat.mod_eq_of_lt hc], ?_⟩
        apply List.map_congr_left
        intro j hj
        simp only [Function.comp]
        congr 1
        rw [Nat.mod_add_mod]
        congr 1
        omega
      · simp only [rrRun]
        rw [hwstep, hih2]
        have hcnt : ((c + 1) % n + m) % n = (c + (m + 1)) % n := by
          rw [Nat.mod_add_mod]
          congr 1
          omega
        rw [hcnt]

/-- One full cycle of selections starting at cursor c is exactly the sorted
list rotated by c. -/
theorem rr_period_eq_rotate (sorted : List ProviderState) (c : ℕ)
    (hc : c < sorted.length) :
    (List.range sorted.length).map (fun j => sorted[(c + j) % sorted.length]?)
      = (sorted.rotate c).map some := by
  have hn : 0 < sorted.length := Nat.lt_of_le_of_lt (Nat.zero_le c) hc
  apply List.ext_get?_iff.mpr
  intro j
  simp only [List.get?_eq_getElem?, List.getElem?_map]
  by_cases hj : j < sorted.length
  · rw [List.getElem?_range hj, List.getElem?_rotate hj, Nat.add_comm j c]
    have hlt : (c + j) % sorted.length < sorted.length := Nat.mod_lt _ hn
    simp [List.getElem?_eq_getElem hlt]
  · have hj2 : sorted.length ≤ j := Nat.le_of_not_lt hj
    rw [List.getElem?_eq_none (by simpa using hj2),
      List.getElem?_eq_none (by simpa [List.length_rotate] using hj2)]
    rfl

/-- Counting an Option value in a list of somes. -/
theorem count_some_map {β : Type} [DecidableEq β] (l : List β) (p : β) :
    (l.map some).count (some p) = l.count p := by
  induction l with
  | nil => rfl
  | cons a t ih => simp [List.count_cons, ih]

/-- C8: under round_robin the candidate list is the priority-sorted provider
list rotated by the persistent cursor, the cursor advances by exactly one
modulo the provider count on every selection regardless of outcome, and over
k x providerCount selections every provider is the first choice exactly k
times. -/
theorem roundRobin_rotation_fairness {α : Type} (cfg : StrategyConfig)
    (clk : Clock) (w : World α) (k : ℕ) (p : ProviderState)
    (hstrat : cfg.strategy = "round_robin")
    (hem : w.strategy.emergencyActive = false)
    (hne : w.strategy.providers ≠ [])
    (hc : w.strategy.roundRobinCounter < w.strategy.providers.length)
    (hnodup : (w.strategy.providers.map (fun kv => kv.2)).Nodup)
    (hmem : p ∈ w.strategy.providers.map (fun kv => kv.2)) :
    ProviderStrategy.buildProviderOrder cfg clk {} w =
      ((sortedByPriority w.strategy).drop w.strategy.roundRobinCounter ++
        (sortedByPriority w.strategy).take w.strategy.roundRobinCounter,
       { w.strategy with
           roundRobinCounter := (w.strategy.roundRobinCounter + 1) %
             max 1 (sortedByPriority w.strategy).length }) ∧
    (rrRun cfg clk (k * w.strategy.providers.length) w).1.count (some p)
      = k := by
  refine ⟨buildProviderOrder_rr cfg clk w hstrat hem hne, ?_⟩
  obtain ⟨h1, h2⟩ := rrRun_characterization cfg clk hstrat
    (k * w.strategy.providers.length) w hem hne hc
  rw [h1]
  clear h1 h2
  set sorted := sortedByPriority w.strategy with hs
  set c := w.strategy.roundRobinCounter with hcdef
  set n := w.strategy.providers.length with hndef
  have hn : 0 < n := List.length_pos.mpr hne
  have hlen : sorted.length = n := by
    simp [hs, sortedByPriority, length_jsSortBy, hndef]
  have hsortnodup : sorted.Nodup :=
    ((jsSortBy_perm _ _).nodup_iff).mpr hnodup
  have hsortmem : p ∈ sorted := ((jsSortBy_perm _ _).mem_iff).mpr hmem
  have hbase : ∀ c', c' < n →
      ((List.range n).map (fun j => sorted[(c' + j) % n]?)).count (some p)
        = 1 := by
    intro c' hc'
    have hper := rr_period_eq_rotate sorted c' (by rw [hlen]; exact hc')
    rw [hlen] at hper
    rw [hper, count_some_map, (List.rotate_perm sorted c').count_eq]
    exact List.count_eq_one_of_mem hsortnodup hsortmem
  induction k with
  | zero => simp
  | succ k ih =>
      have hsplit : (k + 1) * n = k * n + n := by ring
      rw [hsplit, List.range_add, List.map_append, List.count_append, ih,
        List.map_map]
      have hfun : ((fun j => sorted[(c + j) % n]?) ∘ (fun j => k * n + j))
          = fun j => sorted[(c + j) % n]? := by
        funext j
        simp only [Function.comp]
        congr 1
        have hrearrange : c + (k * n + j) = c + j + k * n := by ring
        rw [hrearrange, Nat.add_mul_mod_self_right]
      rw [hfun, hbase c hc]

/-- Witness instantiating C8 with two providers and k = 2: over four
selections provider A is first choice exactly twice. -/
theorem roundRobin_rotation_fairness_witness :
    (ProviderStrategy.buildProviderOrder rrConfig sampleClock {} rrWorld =
      ((sortedByPriority rrWorld.strategy).drop
          rrWorld.strategy.roundRobinCounter ++
        (sortedByPriority rrWorld.strategy).take
          rrWorld.strategy.roundRobinCounter,
       { rrWorld.strategy with
           roundRobinCounter := (rrWorld.strategy.roundRobinCounter + 1) %
             max 1 (sortedByPriority rrWorld.strategy).length })) ∧
    (rrRun rrConfig sampleClock
        (2 * rrWorld.strategy.providers.length) rrWorld).1.count
        (some rrProviderA) = 2 :=
  roundRobin_rotation_fairness rrConfig sampleClock rrWorld 2 rrProviderA
    rfl rfl (by simp [rrWorld]) (by simp [rrWorld])
    (by simp [rrWorld, rrProviderA, rrProviderB]) (by simp [rrWorld])

/-- With an executor that never succeeds, the per-provider loop never
returns a value, and its final last-error slot only holds errors the
executor produced. -/
theorem runInner_allFail {α ε : Type} (cfg : StrategyConfig) (clk : Clock)
    (methodName : String) (estimatedCu : ℚ) (cacheKey : Option String)
    (opts : ProviderRequestOptions) (exec : String → ℕ → Except ε α)
    (lat : ℕ → ℚ) (providerName : String) (maxAttempts : ℕ)
    (hfail : ∀ nm att, ∃ e, exec nm att = Except.error e) :
    ∀ (innerLeft attempt : ℕ) (lastError : Option ε) (w : World α),
      (∀ e, lastError = some e → ∃ nm att, exec nm att = Except.error e) →
      (ProviderStrategy.runInner cfg clk methodName estimatedCu cacheKey opts
          exec lat providerName maxAttempts innerLeft attempt lastError
          w).1 = none ∧
      (∀ e,
        (ProviderStrategy.runInner cfg clk methodName estimatedCu cacheKey
          opts exec lat providerName maxAttempts innerLeft attempt lastError
          w).2.2.1 = some e →
        ∃ nm att, exec nm att = Except.error e) := by
  intro innerLeft
  induction innerLeft with
  | zero =>
      intro attempt lastError w hP
      exact ⟨rfl, hP⟩
  | succ n ih =>
      intro attempt lastError w hP
      by_cases ha : attempt ≥ maxAttempts
      · refine ⟨?_, ?_⟩
        · simp [ProviderStrategy.runInner, ha]
        · simpa [ProviderStrategy.runInner, ha] using hP
      · obtain ⟨e, he⟩ := hfail providerName (attempt + 1)
        simp only [ProviderStrategy.runInner, ha, if_neg, if_false,
          Bool.false_eq_true, not_false_eq_true]
        rw [he]
        exact ih (attempt + 1) (some e)
          (ProviderStrategy.applyFailure cfg clk providerName w)
          (fun e' he' => by
            obtain rfl : e = e' := by injection he'
            exact ⟨providerName, attempt + 1, he⟩)

/-- With an executor that never succeeds, the candidate loop raises either
one of the executor's own errors directly, or the fresh
no-providers-succeeded error; it never returns a value. -/
theorem runCandidates_allFail {α ε : Type} (cfg : StrategyConfig)
    (clk : Clock) (methodName label : String) (estimatedCu : ℚ)
    (cacheKey : Option String) (opts : ProviderRequestOptions)
    (exec : String → ℕ → Except ε α) (lat : ℕ → ℚ)
    (maxAttempts providerAttempts : ℕ)
    (hfail : ∀ nm att, ∃ e, exec nm att = Except.error e) :
    ∀ (cands : List ProviderState) (attempt : ℕ) (lastError : Option ε)
        (w : World α),
      (∀ e, lastError = some e → ∃ nm att, exec nm att = Except.error e) →
      (∃ e,
        (ProviderStrategy.runCandidates cfg clk methodName label estimatedCu
          cacheKey opts exec lat maxAttempts providerAttempts cands attempt
          lastError w).1 = Except.error (ExecErr.underlying e) ∧
        ∃ nm att, exec nm att = Except.error e) ∨
      (ProviderStrategy.runCandidates cfg clk methodName label estimatedCu
        cacheKey opts exec lat maxAttempts providerAttempts cands attempt
        lastError w).1 = Except.error (ExecErr.noProviderSucceeded label) := by
  intro cands
  induction cands with
  | nil =>
      intro attempt lastError w hP
      cases hl : lastError with
      | none =>
          right
          simp [ProviderStrategy.runCandidates, hl]
      | some e =>
          left
          exact ⟨e, by simp [ProviderStrategy.runCandidates, hl], hP e hl⟩
  | cons p rest ih =>
      intro attempt lastError w hP
      by_cases ha : attempt ≥ maxAttempts
      · cases hl : lastError with
        | none =>
            right
            simp [ProviderStrategy.runCandidates, ha, hl]
        | some e =>
            left
            exact ⟨e, by simp [ProviderStrategy.runCandidates, ha, hl],
              hP e hl⟩
      · simp only [ProviderStrategy.runCandidates, ha, if_neg,
          not_false_eq_true]
        cases hu : (ProviderStrategy.canUseProvider clk
            ((w.strategy.providers.lookup p.name).getD p) estimatedCu opts
            w.strategy.emergencyActive w.tracker).1 with
        | false =>
            simp only [hu, Bool.not_false, if_true]
            exact ih attempt lastError _ hP
        | true =>
            simp only [hu, Bool.not_true, Bool.false_eq_true, if_false]
            rcases hrun : ProviderStrategy.runInner cfg clk methodName
                estimatedCu cacheKey opts exec lat p.name maxAttempts
                providerAttempts attempt lastError
                { w with tracker := (ProviderStrategy.canUseProvider clk
                  ((w.strategy.providers.lookup p.name).getD p) estimatedCu
                  opts w.strategy.emergencyActive w.tracker).2 }
              with ⟨o, a2, l2, w2⟩
            have hinner := runInner_allFail cfg clk methodName estimatedCu
              cacheKey opts exec lat p.name maxAttempts hfail providerAttempts
              attempt lastError
              { w with tracker := (ProviderStrategy.canUseProvider clk
                ((w.strategy.providers.lookup p.name).getD p) estimatedCu
                opts w.strategy.emergencyActive w.tracker).2 } hP
            rw [hrun] at hinner
            obtain ⟨ho, hP2⟩ := hinner
            subst ho
            exact ih a2 l2 w2 hP2

/-- With a never-succeeding executor, the provider-selection phase raises
one of the three failure shapes and never returns a value. -/
theorem proceedExecute_allFail {α ε : Type} (cfg : StrategyConfig)
    (clk : Clock) (methodName label : String) (estimatedCu : ℚ)
    (cacheKey : Option String) (opts : ProviderRequestOptions)
    (exec : String → ℕ → Except ε α) (lat : ℕ → ℚ)
    (hfail : ∀ nm att, ∃ e, exec nm att = Except.error e) (w : World α) :
    (ProviderStrategy.proceedExecute cfg clk methodName label estimatedCu
        cacheKey opts exec lat w).1 =
      Except.error (ExecErr.noProvidersAvailable label) ∨
    (∃ e, (ProviderStrategy.proceedExecute cfg clk methodName label
        estimatedCu cacheKey opts exec lat w).1 =
      Except.error (ExecErr.underlying e) ∧
      ∃ nm att, exec nm att = Except.error e) ∨
    (ProviderStrategy.proceedExecute cfg clk methodName label estimatedCu
        cacheKey opts exec lat w).1 =
      Except.error (ExecErr.noProviderSucceeded label) := by
  rcases hb : ProviderStrategy.buildProviderOrder cfg clk opts w
    with ⟨cands, st2⟩
  cases cands with
  | nil =>
      left
      simp [ProviderStrategy.proceedExecute, hb]
  | cons p rest =>
      right
      have h := runCandidates_allFail cfg clk methodName label estimatedCu
        cacheKey opts exec lat (max 1 (opts.maxAttempts.getD (p :: rest).length))
        (max 1 (opts.maxProviderAttempts.getD 1)) hfail (p :: rest) 0 none
        { w with strategy := st2 } (fun e he => by simp at he)
      simpa [ProviderStrategy.proceedExecute, hb] using h

/-- C9 amended: when a non-cacheable call exhausts every candidate without a
success, executeWithBestProvider never returns a value: it raises the
no-providers-available error when the candidate list is empty, rethrows one
of the executor's own errors directly (the accumulated last error) when an
executor call was attempted, and raises the fresh no-providers-succeeded
error when every candidate was filtered out before any attempt. -/
theorem exhaustion_error_semantics {α ε : Type} (cfg : StrategyConfig)
    (clk : Clock) (method params : String) (exec : String → ℕ → Except ε α)
    (lat : ℕ → ℚ) (opts : ProviderRequestOptions) (w : World α)
    (hfail : ∀ nm att, ∃ e, exec nm att = Except.error e)
    (hnc : opts.cacheable = false) :
    (ProviderStrategy.executeWithBestProvider cfg clk method params exec lat
        opts w).1 =
      Except.error (ExecErr.noProvidersAvailable
        (opts.label.getD (opts.method.getD method))) ∨
    (∃ e, (ProviderStrategy.executeWithBestProvider cfg clk method params
        exec lat opts w).1 = Except.error (ExecErr.underlying e) ∧
      ∃ nm att, exec nm att = Except.error e) ∨
    (ProviderStrategy.executeWithBestProvider cfg clk method params exec lat
        opts w).1 =
      Except.error (ExecErr.noProviderSucceeded
        (opts.label.getD (opts.method.getD method))) := by
  simp only [ProviderStrategy.executeWithBestProvider, hnc, Bool.false_and,
    Bool.false_eq_true, if_false]
  cases hce : cfg.cacheEnabled <;> simp only [hce, if_true, if_false,
    Bool.false_eq_true, Bool.true_eq_false] <;>
    exact proceedExecute_allFail cfg clk (opts.method.getD method)
      (opts.label.getD (opts.method.getD method))
      (ProviderStrategy.strategyEstimatedCu opts method) none opts exec lat
      hfail _

/-- C9 counterexample: with one usable provider whose executor call fails,
the call raises the underlying error "boom" itself, not a
no-providers-succeeded failure carrying it as a cause. -/
theorem exhaustion_error_counterexample :
    (ProviderStrategy.executeWithBestProvider defaultConfig sampleClock
        "eth_call" "" failExec c6lat {} c9world).1 =
      Except.error (ExecErr.underlying "boom") ∧
    (ProviderStrategy.executeWithBestProvider defaultConfig sampleClock
        "eth_call" "" failExec c6lat {} c9world).1 ≠
      Except.error (ExecErr.noProviderSucceeded "eth_call") := by
  have hrun : (ProviderStrategy.executeWithBestProvider defaultConfig
      sampleClock "eth_call" "" failExec c6lat {} c9world).1 =
      Except.error (ExecErr.underlying "boom") := by
    have hs1 : ("capacity_based" : String) ≠ "round_robin" := by decide
    have hs2 : ("capacity_based" : String) ≠ "cost_optimized" := by decide
    have hs3 : ("capacity_based" : String) ≠ "emergency" := by decide
    have hnorm : normaliseMethod (some "eth_call") = "eth_call" := by decide
    have htbl : estimateMethodCu (some "eth_call") = 26 := by decide
    norm_num [hs1, hs2, hs3, hnorm, htbl,
      ProviderStrategy.executeWithBestProvider,
      ProviderStrategy.proceedExecute, ProviderStrategy.buildProviderOrder,
      ProviderStrategy.runCandidates, ProviderStrategy.runInner,
      ProviderStrategy.canUseProvider, ProviderStrategy.applyFailure,
      ProviderStrategy.updateProvider, ProviderStrategy.handleFailure,
      ProviderStrategy.evaluateEmergency,
      ProviderStrategy.shouldActivateEmergency,
      ProviderStrategy.emergencyProvidersOf, ProviderStrategy.alertsOf,
      ProviderStrategy.strategyEstimatedCu,
      CuTracker.getAggregatedUsage, CuTracker.getAllUsage, CuTracker.getUsage,
      CuTracker.canUse, CuTracker.maybeReset, CuTracker.lookup,
      CuTracker.computeStatusLevel, List.lookup, updateAssoc, jsSortBy,
      insertKeep, jsFloor,
      defaultConfig, sampleClock, c9world, c9tracker, c9state, c9reg,
      rrProviderA, failExec, c6lat, max_def]
  refine ⟨hrun, ?_⟩
  rw [hrun]
  simp

/-- Witness instantiating the amended C9 at the same world: the outcome is
one of the three failure shapes. -/
theorem exhaustion_error_semantics_witness :
    (ProviderStrategy.executeWithBestProvider defaultConfig sampleClock
        "eth_call" "" failExec c6lat {} c9world).1 =
      Except.error (ExecErr.noProvidersAvailable
        (({} : ProviderRequestOptions).label.getD
          (({} : ProviderRequestOptions).method.getD "eth_call"))) ∨
    (∃ e, (ProviderStrategy.executeWithBestProvider defaultConfig sampleClock
        "eth_call" "" failExec c6lat {} c9world).1 =
      Except.error (ExecErr.underlying e) ∧
      ∃ nm att, failExec nm att = Except.error e) ∨
    (ProviderStrategy.executeWithBestProvider defaultConfig sampleClock
        "eth_call" "" failExec c6lat {} c9world).1 =
      Except.error (ExecErr.noProviderSucceeded
        (({} : ProviderRequestOptions).label.getD
          (({} : ProviderRequestOptions).method.getD "eth_call"))) :=
  exhaustion_error_semantics defaultConfig sampleClock "eth_call" ""
    failExec c6lat {} c9world (fun _ _ => ⟨"boom", rfl⟩) rfl

/-- evaluateEmergency never touches the tracker. -/
theorem evaluateEmergency_tracker {α : Type} (cfg : StrategyConfig)
    (clk : Clock) (source : String) (w : World α) :
    (ProviderStrategy.evaluateEmergency cfg clk source w).tracker =
      w.tracker := by
  simp only [ProviderStrategy.evaluateEmergency]
  split_ifs <;> rfl

/-- updateAssoc keeps the length. -/
theorem length_updateAssoc {β : Type} (k : String) (v : β) :
    ∀ l : List (String × β), (updateAssoc k v l).length = l.length
  | [] => rfl
  | (k0, v0) :: t => by
      by_cases hk : k0 = k <;>
        simp [updateAssoc, hk, length_updateAssoc k v t]

/-- Looking up the key of a freshly appended pair after a failed lookup. -/
theorem lookup_append_single {β : Type} (k : String) (v : β) :
    ∀ l : List (String × β), l.lookup k = none →
      (l ++ [(k, v)]).lookup k = some v
  | [] => fun _ => by simp [List.lookup]
  | (k0, v0) :: t => fun h => by
      simp only [List.lookup, List.cons_append] at h ⊢
      cases hk : (k == k0) with
      | true => simp [hk] at h
      | false => simp only [hk] at h ⊢; exact lookup_append_single k v t h

/-- Looking up the key just written by setAssoc. -/
theorem lookup_setAssoc {β : Type} (k : String) (v : β)
    (l : List (String × β)) :
    (ProviderStrategy.setAssoc k v l).lookup k = some v := by
  unfold ProviderStrategy.setAssoc
  by_cases h : (l.lookup k).isSome
  · simp only [h, if_true]
    exact lookup_updateAssoc k v l h
  · simp only [h, Bool.false_eq_true, if_false]
    exact lookup_append_single k v l (Option.not_isSome_iff_eq_none.mp h)

/-- setAssoc grows the list by at most one pair. -/
theorem length_setAssoc {β : Type} (k : String) (v : β)
    (l : List (String × β)) :
    (ProviderStrategy.setAssoc k v l).length ≤ l.length + 1 := by
  unfold ProviderStrategy.setAssoc
  by_cases h : (l.lookup k).isSome <;>
    simp [h, length_updateAssoc]

/-- enforceCacheLimit is the identity while the cache is within its cap. -/
theorem enforceCacheLimit_small {α : Type} (cfg : StrategyConfig)
    (st : StrategyState α) (h : st.cache.length ≤ cfg.cacheMaxSize) :
    ProviderStrategy.enforceCacheLimit cfg st = st := by
  simp [ProviderStrategy.enforceCacheLimit, h]

/-- storeCacheEntry never touches the tracker. -/
theorem storeCacheEntry_tracker {α : Type} (cfg : StrategyConfig)
    (clk : Clock) (methodName key : String) (estimatedCu : ℚ)
    (opts : ProviderRequestOptions) (providerName : String) (value : α)
    (w : World α) :
    (ProviderStrategy.storeCacheEntry cfg clk methodName key estimatedCu opts
      providerName value w).tracker = w.tracker := rfl

/-- C10: the run-level estimated cost is clamped to a minimum of 1 CU
(floor of the override or per-method estimate, but never below 1); a
non-positive override still costs 1; the success path hands exactly this
clamped cost to recordUsage; the tracker-side clamp of direct recordUsage
bottoms out at 0 instead; concretely a successful non-cached call with
cuOverride 0 charges the provider exactly 1 CU; and the cache entry stored
on the success path carries exactly the clamped cost. -/
theorem minimum_charge :
    (∀ (opts : ProviderRequestOptions) (method : String),
      1 ≤ ProviderStrategy.strategyEstimatedCu opts method) ∧
    (∀ (opts : ProviderRequestOptions) (method : String) (q : ℚ),
      opts.cuOverride = some q → q ≤ 0 →
      ProviderStrategy.strategyEstimatedCu opts method = 1) ∧
    (∀ (α : Type) (cfg : StrategyConfig) (clk : Clock)
        (methodName : String) (estimatedCu : ℚ) (cacheKey : Option String)
        (opts : ProviderRequestOptions) (latency : ℚ)
        (providerName : String) (value : α) (w : World α),
      (ProviderStrategy.applySuccess cfg clk methodName estimatedCu cacheKey
          opts latency providerName value w).tracker =
        CuTracker.recordUsage clk providerName (some methodName)
          (some estimatedCu) w.tracker) ∧
    (∀ (method : Option String) (q : ℚ), q ≤ 0 →
      usageCharge method (some q) = 0) ∧
    ((ProviderStrategy.executeWithBestProvider defaultConfig sampleClock
        "eth_call" "" okExec c6lat c10opts c9world).1 = Except.ok 7 ∧
     ((ProviderStrategy.executeWithBestProvider defaultConfig sampleClock
        "eth_call" "" okExec c6lat c10opts c9world).2.tracker.lookup
        "a").map (fun s => s.dailyUsed) = some (c9state.dailyUsed + 1)) ∧
    (∀ (α : Type) (cfg : StrategyConfig) (clk : Clock)
        (methodName k : String) (estimatedCu : ℚ)
        (opts : ProviderRequestOptions) (providerName : String) (value : α)
        (w : World α),
      w.strategy.cache.length + 1 ≤ cfg.cacheMaxSize →
      ∃ entry : CacheEntry α,
        (ProviderStrategy.storeCacheEntry cfg clk methodName k estimatedCu
          opts providerName value w).strategy.cache.lookup k = some entry ∧
        entry.estimatedCu = estimatedCu ∧
        entry.providerName = providerName ∧ entry.value = value) := by
  refine ⟨?_, ?_, ?_, ?_, ?_, ?_⟩
  · intro opts method
    exact le_max_left _ _
  · intro opts method q hq hle
    have h1 : ((⌊q⌋ : ℤ) : ℚ) ≤ 0 := by
      exact_mod_cast Int.floor_nonpos hle
    simp only [ProviderStrategy.strategyEstimatedCu, hq, Option.getD_some,
      jsFloor]
    exact max_eq_left (h1.trans (by norm_num))
  · intro α cfg clk methodName estimatedCu cacheKey opts latency
      providerName value w
    cases cacheKey with
    | none =>
        simp [ProviderStrategy.applySuccess, evaluateEmergency_tracker]
    | some k =>
        cases hce : cfg.cacheEnabled <;>
          simp [ProviderStrategy.applySuccess, evaluateEmergency_tracker,
            storeCacheEntry_tracker, hce]
  · intro method q hle
    have h1 : ((⌊q⌋ : ℤ) : ℚ) ≤ 0 := by
      exact_mod_cast Int.floor_nonpos hle
    simp only [usageCharge, Option.getD_some, jsFloor]
    exact max_eq_left h1
  · have hs1 : ("capacity_based" : String) ≠ "round_robin" := by decide
    have hs2 : ("capacity_based" : String) ≠ "cost_optimized" := by decide
    have hs3 : ("capacity_based" : String) ≠ "emergency" := by decide
    have hnorm : normaliseMethod (some "eth_call") = "eth_call" := by decide
    constructor <;>
      norm_num [hs1, hs2, hs3, hnorm,
        ProviderStrategy.executeWithBestProvider,
        ProviderStrategy.proceedExecute, ProviderStrategy.buildProviderOrder,
        ProviderStrategy.runCandidates, ProviderStrategy.runInner,
        ProviderStrategy.canUseProvider, ProviderStrategy.applySuccess,
        ProviderStrategy.updateProvider, ProviderStrategy.handleSuccess,
        ProviderStrategy.evaluateEmergency,
        ProviderStrategy.shouldActivateEmergency,
        ProviderStrategy.emergencyProvidersOf, ProviderStrategy.alertsOf,
        ProviderStrategy.strategyEstimatedCu,
        CuTracker.getAggregatedUsage, CuTracker.getAllUsage,
        CuTracker.getUsage, CuTracker.canUse, CuTracker.recordUsage,
        CuTracker.maybeReset, CuTracker.lookup,
        CuTracker.computeStatusLevel, List.lookup, updateAssoc, bumpAssoc,
        jsSortBy, insertKeep, jsFloor, defaultConfig, sampleClock, c9world,
        c9tracker, c9state, c9reg, rrProviderA, okExec, c6lat, c10opts,
        max_def]
  · intro α cfg clk methodName k estimatedCu opts providerName value w hlen
    unfold ProviderStrategy.storeCacheEntry
    dsimp only
    rw [enforceCacheLimit_small]
    · exact ⟨_, lookup_setAssoc _ _ _, rfl, rfl, rfl⟩
    · exact le_trans (length_setAssoc _ _ _) hlen

/-- Witness instantiating the hypothesis-bearing parts of C10: a zero
override is clamped to a 1 CU charge by the strategy, direct recordUsage
clamps the same zero override to a 0 CU charge, and a stored cache entry
carries the clamped cost. -/
theorem minimum_charge_witness :
    ProviderStrategy.strategyEstimatedCu c10opts "eth_call" = 1 ∧
    usageCharge (some "eth_call") (some 0) = 0 ∧
    (∃ entry : CacheEntry ℕ,
      (ProviderStrategy.storeCacheEntry defaultConfig sampleClock "eth_call"
        "k" 26 {} "a" 7 c9world).strategy.cache.lookup "k" = some entry ∧
      entry.estimatedCu = 26 ∧ entry.providerName = "a" ∧ entry.value = 7) :=
  ⟨minimum_charge.2.1 c10opts "eth_call" 0 rfl le_rfl,
   minimum_charge.2.2.2.1 (some "eth_call") 0 le_rfl,
   minimum_charge.2.2.2.2.2 ℕ defaultConfig sampleClock "eth_call" "k" 26
     {} "a" 7 c9world (by norm_num [c9world, defaultConfig])⟩

end CuCore
